import Mathlib

/-!
Verification development for the unstructured_parsequery_app document pipeline.

The Python source is shallowly embedded:
* Python dicts / JSON values become the inductive `J` (association lists for
  dicts, insertion order preserved, later keys win on literal construction).
* Stage functions (`src/stages/*.py`) become Lean functions parametrised by the
  outcome of their remote calls (the OpenAI / upload / SQL-warehouse calls are
  external collaborators) and by the behaviour of `json.loads` (`jsonLoads`).
  A Python exception that propagates out of a function is `Except.error`;
  a returned dict is `Except.ok`.
* The status / results PostgreSQL tables (`src/storage/*.py`) become lists of
  records; SQL `UPDATE ... WHERE file_id = %s` becomes a `List.map` guarded by
  the key.
* The controller (`src/backend.py`) becomes state-passing functions threading
  the two stores plus a ghost log of which stage functions were invoked.

Model scope notes (stated once here):
* Wall-clock values (`datetime.now()`) are environment inputs (`Nat` tick /
  `String` iso stamp).  Python `re`'s `\w` is Unicode aware; this embedding
  uses its ASCII meaning, so filename theorems carry an ASCII hypothesis.
* Trace spans, logging and callbacks are pure observability and are not
  modelled.
-/

namespace UPQ

/-- JSON-like Python value (dict = insertion-ordered association list). -/
inductive J where
  | str (s : String)
  | num (n : Int)
  | bool (b : Bool)
  | null
  | arr (xs : List J)
  | obj (fields : List (String × J))

mutual

/-- Structural equality on `J` (Python `==` on JSON data). -/
def J.beq : J → J → Bool
  | .str a, .str b => a == b
  | .num a, .num b => a == b
  | .bool a, .bool b => a == b
  | .null, .null => true
  | .arr a, .arr b => J.beqArr a b
  | .obj a, .obj b => J.beqObj a b
  | _, _ => false

def J.beqArr : List J → List J → Bool
  | [], [] => true
  | x :: xs, y :: ys => J.beq x y && J.beqArr xs ys
  | _, _ => false

def J.beqObj : List (String × J) → List (String × J) → Bool
  | [], [] => true
  | (k, v) :: xs, (l, w) :: ys => k == l && J.beq v w && J.beqObj xs ys
  | _, _ => false

end

instance : BEq J := ⟨J.beq⟩

/-- Python dict lookup (first binding wins; keys are unique in practice). -/
def dget : List (String × J) → String → Option J
  | [], _ => none
  | (k, v) :: rest, key => if k == key then some v else dget rest key

/-- Python dict key assignment `d[key] = v` (replace in place, else append). -/
def dset : List (String × J) → String → J → List (String × J)
  | [], key, v => [(key, v)]
  | (k, w) :: rest, key, v =>
      if k == key then (k, v) :: rest else (k, w) :: dset rest key v

/-- Python `{**base, **extra}` spread: later keys overwrite earlier ones. -/
def dmerge (base extra : List (String × J)) : List (String × J) :=
  extra.foldl (fun acc kv => dset acc kv.1 kv.2) base

/-- Does `needle` start `hay`? -/
def startMatch : List Char → List Char → Bool
  | _, [] => true
  | [], _ :: _ => false
  | h :: hs, n :: ns => h == n && startMatch hs ns

/-- Substring search (Python `needle in haystackString`). -/
def subSearch (needle : List Char) : List Char → Bool
  | [] => needle.isEmpty
  | h :: t => startMatch (h :: t) needle || subSearch needle t

/-- Python `key in container` for `J` containers: dicts check keys, strings
check substrings, lists check membership; other values raise `TypeError`. -/
def pyContains (container : J) (key : String) : Except String Bool :=
  match container with
  | .obj o => .ok (dget o key).isSome
  | .str s => .ok (subSearch key.data s.data)
  | .arr xs => .ok (xs.any (fun x => J.beq x (.str key)))
  | .num _ => .error "TypeError: argument of type int is not iterable"
  | .bool _ => .error "TypeError: argument of type bool is not iterable"
  | .null => .error "TypeError: argument of type NoneType is not iterable"

/-- Python `container[key]` for a string key: only dicts succeed; present key
required (`KeyError` otherwise); other containers raise `TypeError`. -/
def pySubscript (container : J) (key : String) : Except String J :=
  match container with
  | .obj o =>
      match dget o key with
      | some v => .ok v
      | none => .error ("KeyError: " ++ key)
  | .str _ => .error "TypeError: string indices must be integers"
  | .arr _ => .error "TypeError: list indices must be integers"
  | _ => .error "TypeError: object is not subscriptable"

/-- Python iteration `for x in container`: lists give elements, strings give
their characters, dicts give their keys; other values raise `TypeError`. -/
def pyIter (container : J) : Except String (List J) :=
  match container with
  | .arr xs => .ok xs
  | .str s => .ok (s.data.map (fun c => .str (String.singleton c)))
  | .obj o => .ok (o.map (fun kv => .str kv.1))
  | _ => .error "TypeError: object is not iterable"

/-- Python `container.get(key, dflt)`: only dicts have `.get`
(`AttributeError` otherwise). -/
def pyGet (container : J) (key : String) (dflt : J) : Except String J :=
  match container with
  | .obj o => .ok ((dget o key).getD dflt)
  | _ => .error "AttributeError: object has no attribute get"

/-- Python `len(x)` for `J` values. -/
def pyLen (x : J) : Except String Int :=
  match x with
  | .str s => .ok s.length
  | .arr xs => .ok xs.length
  | .obj o => .ok o.length
  | _ => .error "TypeError: object has no len"

/-- Python `x[:n]` slicing: strings and lists succeed, everything else raises
`TypeError`. -/
def pySlice (x : J) (n : Nat) : Except String J :=
  match x with
  | .str s => .ok (.str (s.take n))
  | .arr xs => .ok (.arr (xs.take n))
  | _ => .error "TypeError: unhashable type slice"

/-- Python `str(x)` / f-string rendering, to the detail the claims need
(`None`, strings, ints, booleans; containers rendered structurally). -/
def pyStr (x : J) : String :=
  match x with
  | .str s => s
  | .num n => toString n
  | .bool b => if b then "True" else "False"
  | .null => "None"
  | .arr _ => "[...]"
  | .obj _ => "\x7b...\x7d"

/-- Python `s.lower()` in its ASCII meaning (stage names and
`TEST_FORCE_FAILURE_STAGE` values are ASCII identifiers). -/
def pyLower (s : String) : String :=
  String.mk (s.data.map Char.toLower)

/-- Python `"\n\n".join(items)`: every item must be a string. -/
def pyJoin (sep : String) : List J → Except String String
  | [] => .ok ""
  | [x] =>
      match x with
      | .str s => .ok s
      | _ => .error "TypeError: sequence item expected str instance"
  | x :: y :: rest =>
      match x with
      | .str s => (pyJoin sep (y :: rest)).map (fun t => s ++ sep ++ t)
      | _ => .error "TypeError: sequence item expected str instance"

/-- The shared preamble of categorize / extract / deidentify
(`src/stages/*.py` lines 47-52): gather `document_text` from `data["pages"]`,
treating a missing key as empty text.  Runs before the stage's `try:` block,
so an error here propagates out of the stage function. -/
def documentTextOf (data : J) : Except String String := do
  let present ← pyContains data "pages"
  if present then
    let pages ← pySubscript data "pages"
    let items ← pyIter pages
    let texts ← items.mapM (fun p => pyGet p "text" (.str ""))
    pyJoin "\n\n" texts
  else
    pure ""

/-! ### Stage functions (`src/stages/`) -/

/-- Outcome of the remote AI-query call (`client.chat.completions.create`);
`err` covers any exception raised up to and including the remote call
(token fetch, transport, malformed HTTP response). -/
inductive RemoteOutcome where
  | ok (responseText : String)
  | err (msg : String)

/-- The `except Exception` return of categorize / extract / deidentify:
`return {"status": "failed", **inputData, "error": str(e), "timestamp": ...}`.
Note the `**inputData` spread sits AFTER the `"status"` key, so an input
`status` key overwrites `"failed"`.  If `inputData` is not a mapping the
spread itself raises, and the exception propagates out of the handler. -/
def failedEnvelope (inputData : J) (errMsg ts : String) : Except String J :=
  match inputData with
  | .obj o =>
      .ok (.obj (dset (dset (dmerge (dset [] "status" (.str "failed")) o)
        "error" (.str errMsg)) "timestamp" (.str ts)))
  | _ => .error "TypeError: argument after asterisk-asterisk must be a mapping"

/-- Success dict of `categorize_document` (`src/stages/categorize.py` 125-131):
`{"status": "success", **parsed_data, "categorization": cr, "model_used": m,
"timestamp": ts}`.  As above, an input `status` key overwrites `"success"`,
and a non-mapping input makes the spread raise. -/
def successCatEnvelope (parsed_data cr : J) (model ts : String) :
    Except String J :=
  match parsed_data with
  | .obj o =>
      .ok (.obj (dset (dset (dset (dmerge (dset [] "status" (.str "success")) o)
        "categorization" cr) "model_used" (.str model)) "timestamp" (.str ts)))
  | _ => .error "TypeError: argument after asterisk-asterisk must be a mapping"

/-- Fallback categorization used when `json.loads` fails
(`src/stages/categorize.py` 104-114). -/
def catFallback (response_text : String) : J :=
  .obj [("primary_category", .str "Unknown"),
        ("primary_confidence", .num 0),
        ("primary_justification", .str (response_text.take 200)),
        ("secondary_category", .str "Unknown"),
        ("secondary_confidence", .num 0),
        ("secondary_justification", .str "Failed to parse response")]

/-- `categorize_document` (`src/stages/categorize.py`).  Mirrors the source
order: document-text preamble (outside `try`, exceptions propagate); remote
call; `json.loads` with fallback; `span.set_outputs` `.get` calls
(`AttributeError` on a non-dict parse result); dict construction (spread);
the success log line subscripts `categorization_result['primary_category']`
(`KeyError` when a validly parsed JSON object lacks that key).  Exceptions
inside `try` become the failed envelope. -/
def categorize_document (jsonLoads : String → Option J)
    (remote : RemoteOutcome) (parsed_data : J) (model ts : String) :
    Except String J := do
  let _document_text ← documentTextOf parsed_data
  match remote with
  | .err e => failedEnvelope parsed_data e ts
  | .ok response_text =>
      let categorization_result : J :=
        match jsonLoads response_text with
        | some j => j
        | none => catFallback response_text
      match categorization_result with
      | .obj co =>
          match successCatEnvelope parsed_data categorization_result model ts with
          | .error e => failedEnvelope parsed_data e ts
          | .ok result =>
              match dget co "primary_category" with
              | some _ => .ok result
              | none => failedEnvelope parsed_data "KeyError: primary_category" ts
      | _ =>
          failedEnvelope parsed_data
            "AttributeError: object has no attribute get" ts

/-- Fallback extraction result used when `json.loads` fails
(`src/stages/extract.py` 104-110). -/
def extFallback (response_text : String) : J :=
  .obj [("entities", .arr []), ("raw_response", .str (response_text.take 200))]

/-- Success dict of `extract_entities` (`src/stages/extract.py` 118-126). -/
def successExtEnvelope (categorized_data er : J) (n : Int) (model ts : String) :
    Except String J :=
  match categorized_data with
  | .obj o =>
      .ok (.obj (dset (dset (dset (dset (dset
        (dmerge (dset [] "status" (.str "success")) o)
        "extraction" er) "entities_count" (.num n))
        "entities_extracted" (.num n)) "model_used" (.str model))
        "timestamp" (.str ts)))
  | _ => .error "TypeError: argument after asterisk-asterisk must be a mapping"

/-- `extract_entities` (`src/stages/extract.py`), same structure as
`categorize_document`; the span output computes
`len(extraction_result.get("entities", []))` and slices `[:5]`, so a
non-sized / non-sliceable `entities` value fails the stage. -/
def extract_entities (jsonLoads : String → Option J)
    (remote : RemoteOutcome) (categorized_data : J) (model ts : String) :
    Except String J := do
  let _document_text ← documentTextOf categorized_data
  match remote with
  | .err e => failedEnvelope categorized_data e ts
  | .ok response_text =>
      let extraction_result : J :=
        match jsonLoads response_text with
        | some j => j
        | none => extFallback response_text
      match extraction_result with
      | .obj eo =>
          let entities := (dget eo "entities").getD (.arr [])
          match pyLen entities with
          | .error e => failedEnvelope categorized_data e ts
          | .ok n =>
              match pySlice entities 5 with
              | .error e => failedEnvelope categorized_data e ts
              | .ok _ =>
                  match successExtEnvelope categorized_data extraction_result
                      n model ts with
                  | .error e => failedEnvelope categorized_data e ts
                  | .ok result => .ok result
      | _ =>
          failedEnvelope categorized_data
            "AttributeError: object has no attribute get" ts

/-- Fallback de-identification result used when `json.loads` fails
(`src/stages/deidentify.py` 104-110). -/
def deidFallback (response_text : String) : J :=
  .obj [("pii_items", .arr []), ("raw_response", .str (response_text.take 200))]

/-- The parsed-or-fallback remote result of the de-identify stage. -/
def deidResultOf (jsonLoads : String → Option J) (response_text : String) : J :=
  match jsonLoads response_text with
  | some j => j
  | none => deidFallback response_text

/-- One iteration of the local masking loop
(`src/stages/deidentify.py` 114-117): `entity["type"]` (raises on a
non-dict entity or a missing key), membership test against
`["person", "organization", "email"]`, in-place overwrite of
`entity["value"]` and `entity["masked"]`. -/
def maskOne (entity : J) : Except String J :=
  match entity with
  | .obj o =>
      match dget o "type" with
      | none => .error "KeyError: type"
      | some t =>
          if J.beq t (.str "person") || J.beq t (.str "organization") ||
              J.beq t (.str "email") then
            .ok (.obj (dset (dset o "value" (.str "[REDACTED]"))
              "masked" (.bool true)))
          else .ok (.obj o)
  | _ => .error "TypeError: entity is not subscriptable"

/-- The masking loop over the entity list.  Mutation is sequential and in
place: when an element raises, the elements already visited stay masked and
the rest stay untouched (second component reports the exception). -/
def maskEntityList : List J → List J × Option String
  | [] => ([], none)
  | e :: rest =>
      match maskOne e with
      | .error msg => (e :: rest, some msg)
      | .ok e2 =>
          let tail := maskEntityList rest
          (e2 :: tail.1, tail.2)

/-- Write the (possibly partially) masked entity list back into the caller's
envelope; only reachable when both layers are dicts. -/
def setEntities (extracted exJ newEnts : J) : J :=
  match extracted, exJ with
  | .obj po, .obj eo => .obj (dset po "extraction" (.obj (dset eo "entities" newEnts)))
  | _, _ => extracted

/-- The in-place masking pass (`src/stages/deidentify.py` 112-117):
`if "extraction" in extracted_data and "entities" in
extracted_data["extraction"]: for entity in ...`.  Returns the post-state of
`extracted_data`; an `.error` carries the exception message together with the
post-state at the moment the exception was raised. -/
def maskingPass (extracted : J) : Except (String × J) J :=
  match pyContains extracted "extraction" with
  | .error e => .error (e, extracted)
  | .ok false => .ok extracted
  | .ok true =>
      match pySubscript extracted "extraction" with
      | .error e => .error (e, extracted)
      | .ok exJ =>
          match pyContains exJ "entities" with
          | .error e => .error (e, extracted)
          | .ok false => .ok extracted
          | .ok true =>
              match pySubscript exJ "entities" with
              | .error e => .error (e, extracted)
              | .ok entVal =>
                  match entVal with
                  | .arr xs =>
                      let masked := maskEntityList xs
                      let post := setEntities extracted exJ (.arr masked.1)
                      match masked.2 with
                      | some m => .error (m, post)
                      | none => .ok post
                  | .str s =>
                      -- iterating a string yields characters; the first one
                      -- raises on subscription, an empty string is a no-op
                      if s.data.isEmpty then .ok extracted
                      else .error ("TypeError: string indices must be integers",
                        extracted)
                  | .obj o =>
                      -- iterating a dict yields its keys (strings)
                      if o.isEmpty then .ok extracted
                      else .error ("TypeError: string indices must be integers",
                        extracted)
                  | _ => .error ("TypeError: object is not iterable", extracted)

/-- Success dict of `deidentify_document` (`src/stages/deidentify.py`
125-133), built from the (already mutated) input dict. -/
def successDeidEnvelope (extracted dr : J) (n : Int) (model ts : String) :
    Except String J :=
  match extracted with
  | .obj o =>
      .ok (.obj (dset (dset (dset (dset (dset
        (dmerge (dset [] "status" (.str "success")) o)
        "deidentification" dr) "pii_items_masked" (.num n))
        "model_used" (.str model)) "final_output" (.bool true))
        "timestamp" (.str ts)))
  | _ => .error "TypeError: argument after asterisk-asterisk must be a mapping"

/-- `deidentify_document` (`src/stages/deidentify.py`).  Returns the stage
outcome (`Except` as for the other stages) TOGETHER with the post-state of
the `extracted_data` argument, because the masking loop mutates the caller's
dict in place.  Order follows the source: preamble, remote call, `json.loads`
fallback, masking pass, span-output `len`/slice of `pii_items`, success dict.
The remote-call exception path returns before the masking pass runs. -/
def deidentify_document (jsonLoads : String → Option J)
    (remote : RemoteOutcome) (extracted_data : J) (model ts : String) :
    Except String J × J :=
  match documentTextOf extracted_data with
  | .error e => (.error e, extracted_data)
  | .ok _ =>
      match remote with
      | .err e => (failedEnvelope extracted_data e ts, extracted_data)
      | .ok response_text =>
          let dr := deidResultOf jsonLoads response_text
          match maskingPass extracted_data with
          | .error (msg, post) => (failedEnvelope post msg ts, post)
          | .ok post =>
              match dr with
              | .obj dro =>
                  let pii := (dget dro "pii_items").getD (.arr [])
                  match pyLen pii with
                  | .error e => (failedEnvelope post e ts, post)
                  | .ok n =>
                      match pySlice pii 5 with
                      | .error e => (failedEnvelope post e ts, post)
                      | .ok _ =>
                          match successDeidEnvelope post dr n model ts with
                          | .error e => (failedEnvelope post e ts, post)
                          | .ok result => (.ok result, post)
              | _ =>
                  (failedEnvelope post
                    "AttributeError: object has no attribute get" ts, post)

/-! ### Ingest stage (`src/stages/ingest.py`) -/

/-- Python `filename.replace(' ', '_')`. -/
def replaceSpaces (s : String) : String :=
  String.mk (s.data.map (fun c => if c == ' ' then '_' else c))

/-- Index of the last occurrence of `c` in `l`, if any. -/
def lastIdxOf (c : Char) (l : List Char) : Option Nat :=
  (l.foldl (fun (acc : Nat × Option Nat) x =>
      (acc.1 + 1, if x == c then some acc.1 else acc.2)) (0, none)).2

/-- Split position of `os.path.splitext` (CPython `genericpath._splitext`
with `sep='/'`, no `altsep`, `extsep='.'`): the extension starts at the last
dot after the last separator, unless every character between them is a dot
(leading-dot files have no extension).  Returns `p.length` when there is no
extension. -/
def splitextPos (p : List Char) : Nat :=
  match lastIdxOf '.' p with
  | none => p.length
  | some d =>
      let s : Nat :=
        match lastIdxOf '/' p with
        | none => 0
        | some si => si + 1
      let sepOk : Bool :=
        match lastIdxOf '/' p with
        | none => true
        | some si => si < d
      if sepOk then
        if ((p.drop s).take (d - s)).all (fun c => c == '.') then p.length
        else d
      else p.length

/-- `os.path.splitext` on a filename string. -/
def splitext (p : String) : String × String :=
  let k := splitextPos p.data
  (String.mk (p.data.take k), String.mk (p.data.drop k))

/-- Python `\w` in its ASCII meaning (see the model scope note). -/
def isWordChar (c : Char) : Bool :=
  c.isAlphanum || c == '_'

/-- `re.sub(r'[^\w\-]', '_', name)`. -/
def sanitizeBase (s : String) : String :=
  String.mk (s.data.map (fun c => if isWordChar c || c == '-' then c else '_'))

/-- `sanitize_filename` (`src/stages/ingest.py` 21-37): replace spaces with
underscores, split off the extension, scrub the base name. -/
def sanitize_filename (filename : String) : String :=
  let f := replaceSpaces filename
  let ne := splitext f
  sanitizeBase ne.1 ++ ne.2

/-- Outcome of the Files-API upload `requests.put` in `ingest_file`:
a response with a status code, or an exception raised before/during the
request (missing host, transport error, token fetch). -/
inductive UploadOutcome where
  | resp (statusCode : Nat) (text : String)
  | exc (msg : String)

/-- Failure dict of `ingest_file` (`src/stages/ingest.py` 162-167); the
ingest failure path has no input-dict spread. -/
def ingestFailEnvelope (filename errMsg ts : String) : J :=
  .obj [("status", .str "failed"), ("original_filename", .str filename),
        ("error", .str errMsg), ("timestamp", .str ts)]

/-- `ingest_file` (`src/stages/ingest.py`): hash and sanitized name are
computed, the upload runs, and a status code outside `[200, 201, 204]`
raises into the local handler. -/
def ingest_file (upload : UploadOutcome) (fileHash : String) (fileSize : Int)
    (filename catalog schema volume_name ts : String) : J :=
  let safe := sanitize_filename filename
  let volume_file_path :=
    "/Volumes/" ++ catalog ++ "/" ++ schema ++ "/" ++ volume_name ++ "/" ++ safe
  match upload with
  | .exc msg => ingestFailEnvelope filename msg ts
  | .resp code text =>
      if code == 200 || code == 201 || code == 204 then
        .obj [("status", .str "success"),
              ("original_filename", .str filename),
              ("safe_filename", .str safe),
              ("volume_path", .str volume_file_path),
              ("size_bytes", .num fileSize),
              ("file_hash_sha256", .str fileHash),
              ("timestamp", .str ts),
              ("catalog", .str catalog),
              ("schema", .str schema),
              ("volume", .str volume_name)]
      else
        ingestFailEnvelope filename
          ("Upload failed with status " ++ toString code ++ ": " ++ text) ts

/-! ### Status store (`src/storage/status_table.py`) -/

/-- One row of the `file_processing_status` table.  String columns are
`Option String` (SQL NULL = `none`), timestamps are environment ticks. -/
structure FileStatusRecord where
  file_id : String
  filename : String
  volume_path : Option String := none
  status : Option String := none
  current_stage : Option String := none
  trace_id : Option String := none
  experiment_id : Option String := none
  run_id : Option String := none
  log_file_path : Option String := none
  start_time : Option Nat := none
  end_time : Option Nat := none
  error_message : Option String := none
  stage_ingest_status : Option String := none
  stage_parse_status : Option String := none
  stage_categorize_status : Option String := none
  stage_extract_status : Option String := none
  stage_deidentify_status : Option String := none
  primary_category : Option String := none
  entities_count : Option Int := none
  pii_items_masked : Option Int := none
  created_at : Nat := 0
  updated_at : Nat := 0
deriving Repr, DecidableEq

/-- The status table: a list of rows (keyed by `file_id`). -/
abbrev Store := List FileStatusRecord

/-- `get_file_status` (`status_table.py` 240-273): `SELECT * WHERE file_id`. -/
def getFileStatus (store : Store) (fid : String) : Option FileStatusRecord :=
  store.find? (fun r => r.file_id == fid)

/-- A SQL parameter value as passed by the call sites. -/
inductive ColValue where
  | vstr (s : String)
  | vint (n : Int)
  | vtime (t : Nat)
  | vnull
deriving Repr, DecidableEq

def ColValue.asStr : ColValue → Option String
  | .vstr s => some s
  | _ => none

def ColValue.asInt : ColValue → Option Int
  | .vint n => some n
  | _ => none

def ColValue.asTime : ColValue → Option Nat
  | .vtime t => some t
  | _ => none

/-- Apply one dynamically-named `SET key = %s` clause from the
keyword-argument path of `update_file_status` (`status_table.py` 207-210).
`file_id`, `created_at` and unknown columns are never set by any call site. -/
def setColumn (r : FileStatusRecord) (k : String) (v : ColValue) :
    FileStatusRecord :=
  match k with
  | "volume_path" => { r with volume_path := v.asStr }
  | "status" => { r with status := v.asStr }
  | "current_stage" => { r with current_stage := v.asStr }
  | "trace_id" => { r with trace_id := v.asStr }
  | "experiment_id" => { r with experiment_id := v.asStr }
  | "run_id" => { r with run_id := v.asStr }
  | "log_file_path" => { r with log_file_path := v.asStr }
  | "start_time" => { r with start_time := v.asTime }
  | "end_time" => { r with end_time := v.asTime }
  | "error_message" => { r with error_message := v.asStr }
  | "stage_ingest_status" => { r with stage_ingest_status := v.asStr }
  | "stage_parse_status" => { r with stage_parse_status := v.asStr }
  | "stage_categorize_status" => { r with stage_categorize_status := v.asStr }
  | "stage_extract_status" => { r with stage_extract_status := v.asStr }
  | "stage_deidentify_status" => { r with stage_deidentify_status := v.asStr }
  | "primary_category" => { r with primary_category := v.asStr }
  | "entities_count" => { r with entities_count := v.asInt }
  | "pii_items_masked" => { r with pii_items_masked := v.asInt }
  | "updated_at" => { r with updated_at := (v.asTime).getD r.updated_at }
  | _ => r

/-- The named parameters of `update_file_status` (`status_table.py` 152-176).
Each is guarded by Python truthiness (`if status:` etc.), so `none` AND the
empty string both mean "clause not added". -/
structure UpdateArgs where
  status : Option String := none
  current_stage : Option String := none
  volume_path : Option String := none
  trace_id : Option String := none
  experiment_id : Option String := none
  run_id : Option String := none
  error_message : Option String := none

/-- Python truthiness of an optional string. -/
def truthy : Option String → Bool
  | some s => !s.isEmpty
  | none => false

/-- The named-parameter clauses of one `UPDATE` built by
`update_file_status`: `updated_at` always, each named field only when truthy
(the clauses are independent, so the sequential clause building of the
source collapses to one simultaneous record update). -/
def applyNamed (now : Nat) (a : UpdateArgs) (r : FileStatusRecord) :
    FileStatusRecord :=
  { r with
    updated_at := now,
    status := if truthy a.status then a.status else r.status,
    current_stage := if truthy a.current_stage then a.current_stage
      else r.current_stage,
    volume_path := if truthy a.volume_path then a.volume_path
      else r.volume_path,
    trace_id := if truthy a.trace_id then a.trace_id else r.trace_id,
    experiment_id := if truthy a.experiment_id then a.experiment_id
      else r.experiment_id,
    run_id := if truthy a.run_id then a.run_id else r.run_id,
    error_message := if truthy a.error_message then a.error_message
      else r.error_message }

/-- The row transformation of one `UPDATE` built by `update_file_status`:
the named clauses, then every keyword-argument column unconditionally
(even when the value is `None`). -/
def applyUpdate (now : Nat) (a : UpdateArgs)
    (kwargs : List (String × ColValue)) (r : FileStatusRecord) :
    FileStatusRecord :=
  kwargs.foldl (fun acc kv => setColumn acc kv.1 kv.2) (applyNamed now a r)

/-- The per-row effect of the `UPDATE ... WHERE file_id = fid`. -/
def rowUpdate (now : Nat) (fid : String) (a : UpdateArgs)
    (kwargs : List (String × ColValue)) (r : FileStatusRecord) :
    FileStatusRecord :=
  if r.file_id == fid then applyUpdate now a kwargs r else r

/-- `update_file_status` (`status_table.py` 152-238): when no clause beyond
`updated_at` was collected the method logs a warning and returns WITHOUT
running the `UPDATE`; otherwise the update applies to the row whose
`file_id` matches. -/
def updateFileStatus (now : Nat) (fid : String) (a : UpdateArgs)
    (kwargs : List (String × ColValue)) (store : Store) : Store :=
  if !truthy a.status && !truthy a.current_stage && !truthy a.volume_path &&
      !truthy a.trace_id && !truthy a.experiment_id && !truthy a.run_id &&
      !truthy a.error_message && kwargs.isEmpty then
    store
  else
    store.map (rowUpdate now fid a kwargs)

/-- `mark_completed` (`status_table.py` 314-351).  `status`/`current_stage`
bind to the named parameters of `update_file_status`; everything else travels
through `**updates`.  `primary_category` is included only when truthy,
`entities_count` / `pii_items_masked` only when not `None`. -/
def markCompletedKwargs (now : Nat) (primary_category : Option String)
    (entities_count pii_items_masked : Option Int) :
    List (String × ColValue) :=
  [("end_time", ColValue.vtime now),
   ("stage_ingest_status", ColValue.vstr "completed"),
   ("stage_parse_status", ColValue.vstr "completed"),
   ("stage_categorize_status", ColValue.vstr "completed"),
   ("stage_extract_status", ColValue.vstr "completed"),
   ("stage_deidentify_status", ColValue.vstr "completed")] ++
  (if truthy primary_category then
    [("primary_category", ColValue.vstr (primary_category.getD ""))]
  else []) ++
  (match entities_count with
   | some n => [("entities_count", ColValue.vint n)]
   | none => []) ++
  (match pii_items_masked with
   | some n => [("pii_items_masked", ColValue.vint n)]
   | none => [])

/-- The named arguments `mark_completed` hands to `update_file_status`. -/
def markCompletedArgs : UpdateArgs :=
  { status := some "completed", current_stage := some "deidentify" }

def markCompleted (now : Nat) (fid : String) (primary_category : Option String)
    (entities_count pii_items_masked : Option Int) (store : Store) : Store :=
  updateFileStatus now fid markCompletedArgs
    (markCompletedKwargs now primary_category entities_count pii_items_masked)
    store

/-- `mark_failed` (`status_table.py` 357-383): `status="failed"`,
`error_message`, `end_time`; when `current_stage` is truthy it is set and the
dynamically named column `stage_<stage>_status` is set to `"failed"`. -/
def markFailed (now : Nat) (fid : String) (error_message : String)
    (current_stage : Option String) (store : Store) : Store :=
  let kwargs : List (String × ColValue) :=
    [("end_time", .vtime now)] ++
      (if truthy current_stage then
        [("stage_" ++ current_stage.getD "" ++ "_status", ColValue.vstr "failed")]
      else [])
  updateFileStatus now fid
    { status := some "failed", error_message := some error_message,
      current_stage := if truthy current_stage then current_stage else none }
    kwargs store

/-- `insert_file_record` (`status_table.py` 108-150): INSERT with
`status='pending'`, `current_stage='ingest'`; a duplicate primary key raises
(the caller catches and continues), so an existing row is left unchanged. -/
def insertFileRecord (now : Nat) (fid filename : String)
    (volume_path : Option String) (store : Store) : Store :=
  if store.any (fun r => r.file_id == fid) then store
  else
    store ++ [{ file_id := fid, filename := filename,
                volume_path := volume_path, status := some "pending",
                current_stage := some "ingest", start_time := some now,
                created_at := now, updated_at := now }]

/-! ### Results store (`src/storage/results_table.py`) -/

/-- One row of the results table; stage results are stored as serialized
JSON strings (TEXT columns). -/
structure FileResultRecord where
  file_id : String
  trace_id : Option String := none
  experiment_id : Option String := none
  source_volume_path : Option String := none
  parse_result : Option String := none
  categorize_result : Option String := none
  extract_result : Option String := none
  deidentify_result : Option String := none
  created_at : Nat := 0
  updated_at : Nat := 0
deriving Repr, DecidableEq

abbrev RStore := List FileResultRecord

/-- `get_results` (`results_table.py` 194-238). -/
def getResults (rstore : RStore) (fid : String) : Option FileResultRecord :=
  rstore.find? (fun r => r.file_id == fid)

/-- `create_result_record` (`results_table.py` 93-134): INSERT; a duplicate
key raises and is caught (returns False), leaving the row unchanged. -/
def createResultRecord (now : Nat) (fid : String)
    (trace_id experiment_id source_volume_path : Option String)
    (rstore : RStore) : RStore :=
  if rstore.any (fun r => r.file_id == fid) then rstore
  else
    rstore ++ [{ file_id := fid, trace_id := trace_id,
                 experiment_id := experiment_id,
                 source_volume_path := source_volume_path,
                 created_at := now, updated_at := now }]

mutual

/-- Minimal `json.dumps` (content is written but never re-inspected by any
claim; control-character escaping is out of scope). -/
def jdump : J → String
  | .str s => "\"" ++ jescape s.data ++ "\""
  | .num n => toString n
  | .bool b => if b then "true" else "false"
  | .null => "null"
  | .arr xs => "[" ++ jdumpArr xs ++ "]"
  | .obj fs => "\x7b" ++ jdumpObj fs ++ "\x7d"

def jescape : List Char → String
  | [] => ""
  | c :: rest =>
      (if c == '"' then "\\\"" else if c == '\\' then "\\\\"
       else String.singleton c) ++ jescape rest

def jdumpArr : List J → String
  | [] => ""
  | [x] => jdump x
  | x :: y :: rest => jdump x ++ ", " ++ jdumpArr (y :: rest)

def jdumpObj : List (String × J) → String
  | [] => ""
  | [(k, v)] => "\"" ++ jescape k.data ++ "\": " ++ jdump v
  | (k, v) :: y :: rest =>
      "\"" ++ jescape k.data ++ "\": " ++ jdump v ++ ", " ++ jdumpObj (y :: rest)

end

/-- `update_stage_result` (`results_table.py` 136-192): the stage name picks
the column, the result dict is serialized with `json.dumps`, and the row
with the matching `file_id` is updated. Unknown stage names are skipped. -/
def updateStageResult (now : Nat) (fid stage : String) (result_data : J)
    (rstore : RStore) : RStore :=
  let s := jdump result_data
  let put : FileResultRecord → FileResultRecord := fun r =>
    match stage with
    | "parse" => { r with parse_result := some s, updated_at := now }
    | "categorize" => { r with categorize_result := some s, updated_at := now }
    | "extract" => { r with extract_result := some s, updated_at := now }
    | "deidentify" => { r with deidentify_result := some s, updated_at := now }
    | _ => r
  if stage == "parse" || stage == "categorize" || stage == "extract" ||
      stage == "deidentify" then
    rstore.map (fun r => if r.file_id == fid then put r else r)
  else rstore

/-! ### Pipeline controller (`src/backend.py`) -/

/-- Environment of one controller run: config, forced-failure hook, the
outcomes of the remote calls, the fresh trace id of the parent span, and the
clock.  `parseOutcome` is the value of `parse_document(volume_path)` — the
parse stage is driven entirely by its remote SQL-warehouse call, so its
result envelope (or propagated exception) is an environment input. -/
structure Env where
  jsonLoads : String → Option J
  forcedFailureStage : Option String := none
  volumeConfig : Option (String × String × String) := none
  uploadOutcome : UploadOutcome := UploadOutcome.exc "unset"
  fileHash : String := ""
  parseOutcome : Except String J := .error "unset"
  catRemote : RemoteOutcome := RemoteOutcome.err "unset"
  extRemote : RemoteOutcome := RemoteOutcome.err "unset"
  deidRemote : RemoteOutcome := RemoteOutcome.err "unset"
  newTraceId : Option String := none
  experimentId : String := "exp"
  logFilePath : Option String := none
  modelName : String := "model"
  nowTs : String := "ts"
  now : Nat := 1

/-- Controller-run state: both stores, the `results["stages"]` dict (ordered
entries), the stage-local variables, and a ghost log of the stage functions
actually invoked. -/
structure RunState where
  store : Store
  rstore : RStore
  stages : List (String × J)
  invoked : List String
  parseR : Option J := none
  catR : Option J := none
  extR : Option J := none

/-- `_check_test_failure` (`src/backend.py` 59-63): when
`TEST_FORCE_FAILURE_STAGE` is truthy and names this stage
(case-insensitively), raise. -/
def checkTestFailure (forced : Option String) (stage : String) : Option String :=
  match forced with
  | some t =>
      if !t.isEmpty && pyLower t == pyLower stage then
        some ("TEST FAILURE: Forced failure at " ++ stage ++
          " stage for testing")
      else none
  | none => none

/-- The controller's per-stage check `result.get("status") != "success"`. -/
def statusIsSuccess (envl : J) : Except String Bool :=
  match pyGet envl "status" .null with
  | .error e => .error e
  | .ok s => .ok (J.beq s (.str "success"))

/-- `envelope.get("error")` rendered into the controller's f-string. -/
def envErrorStr (envl : J) : String :=
  match envl with
  | .obj o => pyStr ((dget o "error").getD .null)
  | _ => "None"

/-- `categorize_result.get("categorization", {}).get("primary_category")`
(`src/backend.py` 334 / 913): computed before the swallowed status update. -/
def primaryCategoryOf (ce : J) : Except String J := do
  let c ← pyGet ce "categorization" (.obj [])
  pyGet c "primary_category" (.null)

/-- Python truthiness of a `J` value. -/
def pyTruthy (j : J) : Bool :=
  match j with
  | .null => false
  | .str s => !s.isEmpty
  | .num n => n != 0
  | .bool b => b
  | .arr xs => !xs.isEmpty
  | .obj o => !o.isEmpty

/-- A `primary_category` value as a SQL parameter for the VARCHAR column;
a value of any other JSON type would make the (swallowed) `UPDATE` fail. -/
def pcColValue (j : J) : Option ColValue :=
  match j with
  | .str s => some (ColValue.vstr s)
  | .null => some ColValue.vnull
  | _ => none

/-- Argument conversion for `mark_completed`'s `primary_category`: a string
passes, `None` passes, and a non-string value is included (truthy) but makes
the swallowed `UPDATE` fail, or is excluded (falsy) and behaves like `None`. -/
def argStrOf (j : J) : Option (Option String) :=
  match j with
  | .str s => some (some s)
  | .null => some none
  | other => if pyTruthy other then none else some none

/-- Argument conversion for the INTEGER statistics columns of
`mark_completed` (`is not None` guard; non-integers fail the `UPDATE`). -/
def argIntOf (j : J) : Option (Option Int) :=
  match j with
  | .num n => some (some n)
  | .null => some none
  | _ => none

/-- An optional string passed through the keyword-argument path
(`log_file_path`): set unconditionally, `None` becomes NULL. -/
def colOfOptStr : Option String → ColValue
  | some s => ColValue.vstr s
  | none => ColValue.vnull

/-- Stage 2 of the controller loop (`src/backend.py` 277-315 / 866-898). -/
def runParseStage (env : Env) (fid : String) (st : RunState) :
    Except (String × RunState) RunState :=
  let st := { st with invoked := st.invoked ++ ["parse"] }
  match env.parseOutcome with
  | .error e => .error (e, st)
  | .ok pr =>
      let st := { st with stages := st.stages ++ [("parse", pr)],
                          parseR := some pr }
      match checkTestFailure env.forcedFailureStage "parse" with
      | some msg => .error (msg, st)
      | none =>
          match statusIsSuccess pr with
          | .error e => .error (e, st)
          | .ok false => .error ("Parse failed: " ++ envErrorStr pr, st)
          | .ok true =>
              let store2 := updateFileStatus env.now fid
                { current_stage := some "categorize" }
                [("stage_parse_status", ColValue.vstr "completed")] st.store
              let rstore2 := updateStageResult env.now fid "parse" pr st.rstore
              .ok { st with store := store2, rstore := rstore2 }

/-- Stage 3 of the controller loop (`src/backend.py` 317-357 / 902-938).
The `primary_category` probe runs before the (exception-swallowing) status
update; an ill-typed category makes that `UPDATE` fail silently. -/
def runCategorizeStage (env : Env) (fid : String) (st : RunState) :
    Except (String × RunState) RunState :=
  let st := { st with invoked := st.invoked ++ ["categorize"] }
  match categorize_document env.jsonLoads env.catRemote (st.parseR.getD .null)
      env.modelName env.nowTs with
  | .error e => .error (e, st)
  | .ok ce =>
      let st := { st with stages := st.stages ++ [("categorize", ce)],
                          catR := some ce }
      match checkTestFailure env.forcedFailureStage "categorize" with
      | some msg => .error (msg, st)
      | none =>
          match statusIsSuccess ce with
          | .error e => .error (e, st)
          | .ok false => .error ("Categorize failed: " ++ envErrorStr ce, st)
          | .ok true =>
              match primaryCategoryOf ce with
              | .error e => .error (e, st)
              | .ok pcJ =>
                  let store2 := match pcColValue pcJ with
                    | some cv => updateFileStatus env.now fid
                        { current_stage := some "extract" }
                        [("stage_categorize_status", ColValue.vstr "completed"),
                         ("primary_category", cv)] st.store
                    | none => st.store
                  let rstore2 :=
                    updateStageResult env.now fid "categorize" ce st.rstore
                  .ok { st with store := store2, rstore := rstore2 }

/-- Stage 4 of the controller loop (`src/backend.py` 359-397 / 940-974). -/
def runExtractStage (env : Env) (fid : String) (st : RunState) :
    Except (String × RunState) RunState :=
  let st := { st with invoked := st.invoked ++ ["extract"] }
  match extract_entities env.jsonLoads env.extRemote (st.catR.getD .null)
      env.modelName env.nowTs with
  | .error e => .error (e, st)
  | .ok ee =>
      let st := { st with stages := st.stages ++ [("extract", ee)],
                          extR := some ee }
      match checkTestFailure env.forcedFailureStage "extract" with
      | some msg => .error (msg, st)
      | none =>
          match statusIsSuccess ee with
          | .error e => .error (e, st)
          | .ok false => .error ("Extract failed: " ++ envErrorStr ee, st)
          | .ok true =>
              let store2 := updateFileStatus env.now fid
                { current_stage := some "deidentify" }
                [("stage_extract_status", ColValue.vstr "completed")] st.store
              let rstore2 := updateStageResult env.now fid "extract" ee st.rstore
              .ok { st with store := store2, rstore := rstore2 }

/-- The terminal `mark_completed` block (`src/backend.py` 432-448 /
1002-1018): the statistics probes run INSIDE the swallowed `try`, so an
exception there (or an ill-typed SQL parameter) skips the terminal update. -/
def completionStats (catR extR : Option J) (de : J) :
    Except String (J × J × J) :=
  match primaryCategoryOf (catR.getD .null) with
  | .error e => .error e
  | .ok pcJ =>
      match pyGet (extR.getD .null) "entities_count" (.num 0) with
      | .error e => .error e
      | .ok ecJ =>
          match pyGet de "pii_items_masked" (.num 0) with
          | .error e => .error e
          | .ok pmJ => .ok (pcJ, ecJ, pmJ)

def completionUpdate (env : Env) (fid : String) (catR extR : Option J)
    (de : J) (store : Store) : Store :=
  match completionStats catR extR de with
  | .error _ => store
  | .ok (pcJ, ecJ, pmJ) =>
      match argStrOf pcJ, argIntOf ecJ, argIntOf pmJ with
      | some pc, some ec, some pm => markCompleted env.now fid pc ec pm store
      | _, _, _ => store

/-- Stage 5 of the controller loop plus pipeline completion
(`src/backend.py` 399-448 / 976-1018).  The masking loop inside
`deidentify_document` mutates the caller's `extract_result` in place, hence
the post-state write-back to `extR`. -/
def runDeidentifyStage (env : Env) (fid : String) (st : RunState) :
    Except (String × RunState) RunState :=
  let st := { st with invoked := st.invoked ++ ["deidentify"] }
  let der := deidentify_document env.jsonLoads env.deidRemote
    (st.extR.getD .null) env.modelName env.nowTs
  let st := { st with extR := st.extR.map (fun _ => der.2) }
  match der.1 with
  | .error e => .error (e, st)
  | .ok de =>
      let st := { st with stages := st.stages ++ [("deidentify", de)] }
      match checkTestFailure env.forcedFailureStage "deidentify" with
      | some msg => .error (msg, st)
      | none =>
          match statusIsSuccess de with
          | .error e => .error (e, st)
          | .ok false => .error ("De-identify failed: " ++ envErrorStr de, st)
          | .ok true =>
              let rstore2 :=
                updateStageResult env.now fid "deidentify" de st.rstore
              let store2 := completionUpdate env fid st.catR st.extR de st.store
              .ok { st with store := store2, rstore := rstore2 }

/-- Stages 2-5 guarded by the resume index (`if start_index <= k:`). -/
def runStagesFrom (env : Env) (fid : String) (startIndex : Nat)
    (st : RunState) : Except (String × RunState) RunState :=
  match (if startIndex ≤ 0 then runParseStage env fid st else .ok st) with
  | .error p => .error p
  | .ok st1 =>
      match (if startIndex ≤ 1 then runCategorizeStage env fid st1
          else .ok st1) with
      | .error p => .error p
      | .ok st2 =>
          match (if startIndex ≤ 2 then runExtractStage env fid st2
              else .ok st2) with
          | .error p => .error p
          | .ok st3 => runDeidentifyStage env fid st3

/-- `completed_stages[-1] if completed_stages else dflt`
(`src/backend.py` 470-471 / 1040-1041): the last key of
`results["stages"]`. -/
def failedStageOf (stages : List (String × J)) (dflt : String) : String :=
  match stages.reverse with
  | [] => dflt
  | (n, _) :: _ => n

/-- Result of one controller invocation: the envelope status / error the
caller sees, the `results["stages"]` entries, the ghost invocation log and
the final stores. -/
structure PipelineOutcome where
  resultStatus : String
  errorMsg : Option String
  stages : List (String × J)
  invoked : List String
  store : Store
  rstore : RStore

/-- The tail of `process_file_through_pipeline`: package the executor's
outcome, marking the file failed at the last attempted stage on error
(`src/backend.py` 455-513). -/
def finishPipeline (env : Env) (fid : String)
    (res : Except (String × RunState) RunState) : PipelineOutcome :=
  match res with
  | .ok st =>
      ⟨"completed", none, st.stages, st.invoked, st.store, st.rstore⟩
  | .error (msg, st) =>
      let fstage := failedStageOf st.stages "ingest"
      ⟨"failed", some msg, st.stages, st.invoked,
        markFailed env.now fid msg (some fstage) st.store, st.rstore⟩

/-- Stage 1 of `process_file_through_pipeline` (`src/backend.py` 209-275):
ingest, then the post-ingest status update (which carries the trace id and
log path) and the creation of the results-store row. -/
def runIngestStage (env : Env) (fileSize : Int) (filename fid : String)
    (cfg : String × String × String) (st : RunState) :
    Except (String × RunState) RunState :=
  let st := { st with invoked := st.invoked ++ ["ingest"] }
  let ir := ingest_file env.uploadOutcome env.fileHash fileSize filename
    cfg.1 cfg.2.1 cfg.2.2 env.nowTs
  let st := { st with stages := st.stages ++ [("ingest", ir)] }
  match checkTestFailure env.forcedFailureStage "ingest" with
  | some msg => .error (msg, st)
  | none =>
      match statusIsSuccess ir with
      | .error e => .error (e, st)
      | .ok false => .error ("Ingest failed: " ++ envErrorStr ir, st)
      | .ok true =>
          match pySubscript ir "volume_path" with
          | .error e => .error (e, st)
          | .ok vpJ =>
              let vp := pyStr vpJ
              let store2 := updateFileStatus env.now fid
                { volume_path := some vp, status := some "processing",
                  current_stage := some "parse",
                  trace_id := env.newTraceId,
                  experiment_id := some env.experimentId }
                [("stage_ingest_status", ColValue.vstr "completed"),
                 ("log_file_path", colOfOptStr env.logFilePath)] st.store
              let rstore2 := createResultRecord env.now fid env.newTraceId
                (some env.experimentId) (some vp) st.rstore
              .ok { st with store := store2, rstore := rstore2 }

/-- `process_file_through_pipeline` (`src/backend.py` 122-513).
`fileIdArg` is the optional pre-created id; a falsy value means a fresh
`freshId` is generated and an initial record inserted. -/
def process_file_through_pipeline (env : Env) (fileSize : Int)
    (filename : String) (fileIdArg : Option String) (freshId : String)
    (store : Store) (rstore : RStore) : PipelineOutcome :=
  let pipeline_id := if truthy fileIdArg then fileIdArg.getD "" else freshId
  let store0 := if truthy fileIdArg then store
    else insertFileRecord env.now pipeline_id filename none store
  match env.volumeConfig with
  | none =>
      let msg := "Volume not configured. Set VOLUME_PATH environment variable."
      ⟨"failed", some msg, [], [],
        markFailed env.now pipeline_id msg (some "ingest") store0, rstore⟩
  | some cfg =>
      let st0 : RunState := ⟨store0, rstore, [], [], none, none, none⟩
      finishPipeline env pipeline_id (do
        let st1 ← runIngestStage env fileSize filename pipeline_id cfg st0
        runStagesFrom env pipeline_id 0 st1)

/-! ### Reprocess / resume (`src/backend.py` `reprocess_file`) -/

/-- `stage_order` (`src/backend.py` 575). -/
def stage_order : List String := ["parse", "categorize", "extract", "deidentify"]

/-- `stage_order.index(stage)` for members of `stage_order`. -/
def stageIndexOf (s : String) : Nat :=
  match s with
  | "parse" => 0
  | "categorize" => 1
  | "extract" => 2
  | "deidentify" => 3
  | _ => 0

/-- The starting stage and index chosen by `reprocess_file`
(`src/backend.py` 598-605): a truthy `failed_stage` that lowercases into
`stage_order` starts there; anything else (including `None`, `"ingest"` or
garbage) starts from `parse`. -/
def reprocessStart (failed_stage : Option String) : String × Nat :=
  match failed_stage with
  | some fs =>
      if !fs.isEmpty && stage_order.contains (pyLower fs) then
        (pyLower fs, stageIndexOf (pyLower fs))
      else ("parse", 0)
  | none => ("parse", 0)

/-- The trace-id value stored by `reprocess_file` (`src/backend.py`
670-695): appended only when resuming (`start_index > 0` as computed BEFORE
loading) with a truthy prior value and a truthy new id; otherwise the new
id replaces the old one outright. -/
def combinedTraceIds (newTraceId : Option String) (existing : String)
    (isResume : Bool) : Option String :=
  if isResume && !existing.isEmpty && truthy newTraceId then
    some (existing ++ "," ++ newTraceId.getD "")
  else newTraceId

/-- Loading of persisted stage results on resume (`src/backend.py` 705-744):
for each stage strictly before the resume point, when the stored column is a
truthy string it is `json.loads`-ed; a parse exception aborts the whole
loading `try` (keeping what was already loaded) and the caller falls back to
`start_index = 0`.  Absent rows or NULL/empty columns load nothing and raise
nothing.  Returns (parse, categorize, extract results, the
`results["stages"]` entries added, exception flag). -/
def loadPrevResults (jsonLoads : String → Option J) (startIndex : Nat)
    (prev : Option FileResultRecord) :
    Option J × Option J × Option J × List (String × J) × Bool :=
  match prev with
  | none => (none, none, none, [], false)
  | some pr =>
      let step1 : Option J × List (String × J) × Bool :=
        if 0 < startIndex then
          if truthy pr.parse_result then
            match jsonLoads (pr.parse_result.getD "") with
            | some j => (some j, [("parse", j)], false)
            | none => (none, [], true)
          else (none, [], false)
        else (none, [], false)
      if step1.2.2 then (step1.1, none, none, step1.2.1, true)
      else
        let step2 : Option J × List (String × J) × Bool :=
          if 1 < startIndex then
            if truthy pr.categorize_result then
              match jsonLoads (pr.categorize_result.getD "") with
              | some j => (some j, step1.2.1 ++ [("categorize", j)], false)
              | none => (none, step1.2.1, true)
            else (none, step1.2.1, false)
          else (none, step1.2.1, false)
        if step2.2.2 then (step1.1, step2.1, none, step2.2.1, true)
        else
          let step3 : Option J × List (String × J) × Bool :=
            if 2 < startIndex then
              if truthy pr.extract_result then
                match jsonLoads (pr.extract_result.getD "") with
                | some j => (some j, step2.2.1 ++ [("extract", j)], false)
                | none => (none, step2.2.1, true)
              else (none, step2.2.1, false)
            else (none, step2.2.1, false)
          (step1.1, step2.1, step3.1, step3.2.1, step3.2.2)

/-- Result of one `reprocess_file` invocation; `storeAfterInit` is the ghost
snapshot of the status store right after the pre-stage "processing" update
(`src/backend.py` 840-863), before any stage runs. -/
structure ReprocessOutcome where
  resultStatus : String
  errorMsg : Option String
  stages : List (String × J)
  invoked : List String
  store : Store
  rstore : RStore
  storeAfterInit : Store

/-- The tail of `reprocess_file`: package the executor's outcome, marking the
file failed (at the stage of the last failed envelope) on error
(`src/backend.py` 1040-1076). -/
def finishReprocess (env : Env) (fid : String) (storeInit : Store)
    (res : Except (String × RunState) RunState) : ReprocessOutcome :=
  match res with
  | .ok st =>
      ⟨"completed", none, st.stages, st.invoked, st.store, st.rstore, storeInit⟩
  | .error (msg, st) =>
      let fstage := failedStageOf st.stages "parse"
      ⟨"failed", some msg, st.stages, st.invoked,
        markFailed env.now fid msg (some fstage) st.store, st.rstore, storeInit⟩

/-- `reprocess_file` (`src/backend.py` 556-1083).  Notable faithful details:
the resume/replace decision for trace ids uses the PRE-loading
`start_index`; the `error_message=None` argument of the initial update is
dropped by `update_file_status`'s truthiness guard (so the previous error
message is NOT cleared, despite the source comment); a loading exception
falls back to `start_index = 0` but a merely absent result does not. -/
def reprocess_file (env : Env) (fid volume_path filename : String)
    (failed_stage : Option String) (store : Store) (rstore : RStore) :
    ReprocessOutcome :=
  let vp1 : String :=
    if volume_path.isEmpty then
      match getFileStatus store fid with
      | some r => if truthy r.volume_path then r.volume_path.getD "" else ""
      | none => ""
    else volume_path
  if vp1.isEmpty then
    ⟨"failed",
      some "Cannot reprocess: volume_path is empty and not found in database",
      [], [], store, rstore, store⟩
  else
    let sp : String × Nat := reprocessStart failed_stage
    let startIndex0 := sp.2
    let existing_trace_ids : String :=
      match getFileStatus store fid with
      | some r => r.trace_id.getD ""
      | none => ""
    let is_resume : Bool := startIndex0 != 0
    let combined : Option String :=
      combinedTraceIds env.newTraceId existing_trace_ids is_resume
    let loaded :=
      if 0 < startIndex0 then
        loadPrevResults env.jsonLoads startIndex0 (getResults rstore fid)
      else (none, none, none, [], false)
    let excFlag := loaded.2.2.2.2
    let startIndex1 := if excFlag then 0 else startIndex0
    let startStage1 := if excFlag then "parse" else sp.1
    let storeInit := updateFileStatus env.now fid
      { status := some "processing", current_stage := some startStage1,
        trace_id := combined, experiment_id := some env.experimentId,
        -- `error_message=None  # Clear previous error`: dropped by the
        -- truthiness guard in update_file_status, so nothing is cleared
        error_message := none }
      [("log_file_path", colOfOptStr env.logFilePath),
       ("stage_parse_status",
         if startIndex1 ≤ 0 then ColValue.vnull else ColValue.vstr "completed"),
       ("stage_categorize_status",
         if startIndex1 ≤ 1 then ColValue.vnull else ColValue.vstr "completed"),
       ("stage_extract_status",
         if startIndex1 ≤ 2 then ColValue.vnull else ColValue.vstr "completed"),
       ("stage_deidentify_status", ColValue.vnull)]
      store
    let st0 : RunState :=
      ⟨storeInit, rstore, loaded.2.2.2.1, [], loaded.1, loaded.2.1, loaded.2.2.1⟩
    finishReprocess env fid storeInit (runStagesFrom env fid startIndex1 st0)

/-! ### Maintenance (`src/backend.py` `reset_stuck_processing_files`) -/

/-- The diagnostic message written by the stuck-file reset. -/
def interruptMsg (current_stage : Option String) : String :=
  "Processing interrupted by app restart (was at stage: " ++
    (match current_stage with | some s => s | none => "None") ++ ")"

/-- `ORDER BY created_at DESC` (ties broken deterministically by insertion
sort; the table's rows have distinct creation ticks in practice). -/
def createdDesc (a b : FileStatusRecord) : Prop :=
  b.created_at ≤ a.created_at

instance : DecidableRel createdDesc :=
  fun a b => Nat.decLe b.created_at a.created_at

/-- `get_all_files` (`status_table.py` 275-312): `SELECT * ORDER BY
created_at DESC LIMIT %s`. -/
def getAllFiles (store : Store) (lim : Nat) : List FileStatusRecord :=
  (List.insertionSort createdDesc store).take lim

/-- `reset_stuck_processing_files` (`src/backend.py` 1094-1136): fetch the
(at most 1000) most recent rows, keep those with `status='processing'`, and
mark each failed with the interruption message.  Returns the final store and
`reset_count`. -/
def reset_stuck_processing_files (now : Nat) (store : Store) : Store × Nat :=
  let all_files := getAllFiles store 1000
  let stuck := all_files.filter (fun r => r.status == some "processing")
  stuck.foldl
    (fun acc r =>
      (markFailed now r.file_id (interruptMsg r.current_stage)
        r.current_stage acc.1, acc.2 + 1))
    (store, 0)

/-- The store-only effect of the stuck-file reset loop. -/
def resetFold (now : Nat) (l : List FileStatusRecord) (s0 : Store) : Store :=
  l.foldl (fun acc r => markFailed now r.file_id
    (interruptMsg r.current_stage) r.current_stage acc) s0

/-- The rows the stuck-file reset iterates over. -/
def stuckList (store : Store) : List FileStatusRecord :=
  (getAllFiles store 1000).filter (fun r => r.status == some "processing")

/-! ### Projection helpers used by theorem statements -/

/-- Lookup in an object value (`none` on non-objects). -/
def jobjGet (j : J) (key : String) : Option J :=
  match j with
  | .obj o => dget o key
  | _ => none

/-- A field of a returned (non-raising) stage envelope. -/
def envField (e : Except String J) (key : String) : Option J :=
  match e with
  | .ok j => jobjGet j key
  | .error _ => none

/-- Did the computation return (rather than raise)? -/
def isOkE (e : Except String J) : Bool :=
  match e with
  | .ok _ => true
  | .error _ => false

/-- The string content of an optional `J` value. -/
def jAsStr : Option J → Option String
  | some (.str s) => some s
  | _ => none

/-- The envelope recorded under a stage name in `results["stages"]`. -/
def stageEnvelope (stages : List (String × J)) (name : String) : Option J :=
  (stages.find? (fun p => p.1 == name)).map Prod.snd

/-- A sample parsed-document envelope (output shape of the parse stage). -/
def sampleParsed : J :=
  .obj [("status", .str "success"),
        ("pages", .arr [.obj [("text", .str "hello"), ("page_id", .num 0)]])]

/-- `json.loads` behaviour for responses that are not valid JSON. -/
def jlNone : String → Option J := fun _ => none

/-! ### Concrete fixtures for the evaluation theorems -/

/-- The envelope the three AI stages return when the remote call raises on
input `sampleParsed`: the input's `status` survives the spread. -/
def sampleFailedBack : J :=
  .obj [("status", .str "success"),
        ("pages", .arr [.obj [("text", .str "hello"), ("page_id", .num 0)]]),
        ("error", .str "boom"), ("timestamp", .str "T")]

/-- A 250-character remote response (not valid JSON). -/
def longResponse : String := String.mk (List.replicate 250 'a')

/-- An input envelope carrying `status="failed"`. -/
def failedStatusInput : J :=
  .obj [("status", .str "failed"), ("pages", .arr [])]

/-- A status row for file `f1` after a previously failed run: old trace id,
an error message, and a mix of per-stage sub-statuses. -/
def prevRecord : FileStatusRecord :=
  { file_id := "f1", filename := "a.pdf",
    volume_path := some "/Volumes/c/s/v/a.pdf",
    status := some "failed", current_stage := some "categorize",
    trace_id := some "old", error_message := some "previous error",
    stage_ingest_status := some "completed",
    stage_parse_status := some "completed",
    stage_categorize_status := some "failed", created_at := 5 }

/-- A controller environment in which every remote call succeeds with a
non-JSON response and a fresh trace id `"new"` is available. -/
def happyEnv : Env :=
  { jsonLoads := jlNone, newTraceId := some "new",
    parseOutcome := .ok (.obj [("status", .str "success"), ("pages", .arr [])]),
    catRemote := .ok "notjson", extRemote := .ok "notjson",
    deidRemote := .ok "notjson" }

/-- A results-store row for `f1` holding a serialized parse result. -/
def storedResults : FileResultRecord :=
  { file_id := "f1", parse_result := some "PARSEJSON" }

/-- A `json.loads` that parses exactly the stored string `PARSEJSON`. -/
def jlStored : String → Option J := fun s =>
  if s == "PARSEJSON" then
    some (.obj [("status", .str "success"), ("pages", .arr [])])
  else none

/-- Status rows for the stuck-file counterexample: 1001 rows, newest first;
only the OLDEST (`f1000`, beyond the 1000-row retrieval limit) is stuck in
`processing`. -/
def limitRecord (i : Nat) : FileStatusRecord :=
  { file_id := "f" ++ toString i, filename := "x",
    status := if i == 1000 then some "processing" else some "completed",
    current_stage := some "parse", created_at := 2000 - i }

def limitStore : Store := (List.range 1001).map limitRecord

/-- Relation between an entity dict and its post-loop state
(`src/stages/deidentify.py` 114-117): PII-typed entities (`person` /
`organization` / `email`) get `value` overwritten with `[REDACTED]` and gain
`masked=true`; all others are untouched. -/
def maskSpec (e e2 : J) : Prop :=
  ∀ (o : List (String × J)) (ty : String), e = J.obj o →
    dget o "type" = some (J.str ty) →
    ((ty = "person" ∨ ty = "organization" ∨ ty = "email") →
      e2 = J.obj (dset (dset o "value" (J.str "[REDACTED]")) "masked"
        (J.bool true))) ∧
    (¬(ty = "person" ∨ ty = "organization" ∨ ty = "email") → e2 = e)

/-- A two-entity extraction list: one PII entity, one not. -/
def deidEnts : List J :=
  [J.obj [("type", J.str "person"), ("value", J.str "Alice")],
   J.obj [("type", J.str "date"), ("value", J.str "2020")]]

def deidEXO : List (String × J) := [("entities", J.arr deidEnts)]

def deidEO : List (String × J) := [("extraction", J.obj deidEXO)]

/-- An environment whose upload and parse succeed and whose test hook
forces a failure at the categorize stage. -/
def c6Env : Env :=
  { jsonLoads := jlNone, forcedFailureStage := some "categorize",
    volumeConfig := some ("c", "s", "v"),
    uploadOutcome := .resp 200 "",
    parseOutcome := .ok (.obj [("status", .str "success"),
      ("pages", .arr [])]),
    catRemote := .ok "notjson", newTraceId := some "new" }

/-- A row stuck in `processing`. -/
def stuckRec : FileStatusRecord :=
  { file_id := "s1", filename := "x", status := some "processing",
    current_stage := some "parse", created_at := 3 }

/-- A row already completed. -/
def doneRec : FileStatusRecord :=
  { file_id := "s2", filename := "y", status := some "completed",
    created_at := 4 }

/-- Trace-id column at a key of the store. -/
def traceAt (store : Store) (q : String) : Option (Option String) :=
  (getFileStatus store q).map (fun r => r.trace_id)

/-- The run state carried by either outcome of a controller step. -/
def stateOf : Except (String × RunState) RunState → RunState
  | .ok s => s
  | .error p => p.2

/-! ### Dictionary lemmas -/

theorem dget_dset_self (o : List (String × J)) (k : String) (v : J) :
    dget (dset o k v) k = some v := by
  induction o with
  | nil => simp [dset, dget]
  | cons hd tl ih =>
      by_cases h : hd.1 == k
      · cases hd; simp_all [dset, dget]
      · cases hd; simp_all [dset, dget]

theorem dget_dset_ne (o : List (String × J)) (k k2 : String) (v : J)
    (h : ¬(k == k2)) : dget (dset o k v) k2 = dget o k2 := by
  induction o with
  | nil => simp_all [dset, dget]
  | cons hd tl ih =>
      by_cases h2 : hd.1 == k
      · cases hd; simp_all [dset, dget]
      · cases hd; simp_all [dset, dget]

theorem dget_dmerge_not_mem (base extra : List (String × J)) (k : String)
    (h : ∀ kv ∈ extra, ¬(kv.1 == k)) :
    dget (dmerge base extra) k = dget base k := by
  induction extra generalizing base with
  | nil => rfl
  | cons hd tl ih =>
      have hd1 : ¬(hd.1 == k) := h hd (by simp)
      have : dmerge base (hd :: tl) = dmerge (dset base hd.1 hd.2) tl := rfl
      rw [this, ih _ (fun kv hkv => h kv (by simp [hkv])),
        dget_dset_ne _ _ _ _ hd1]

theorem dget_dmerge_of_mem (base extra : List (String × J)) (k : String)
    (v : J) (hv : dget extra k = some v) (hnd : (extra.map Prod.fst).Nodup) :
    dget (dmerge base extra) k = some v := by
  induction extra generalizing base with
  | nil => simp [dget] at hv
  | cons hd tl ih =>
      have hstep : dmerge base (hd :: tl) = dmerge (dset base hd.1 hd.2) tl := rfl
      have hnd2 : (hd.1 :: tl.map Prod.fst).Nodup := hnd
      have hparts := List.nodup_cons.mp hnd2
      by_cases h1 : hd.1 == k
      · have hk : hd.1 = k := by simpa using h1
        have hv2 : v = hd.2 := by
          cases hd; simp_all [dget]
        have hnotin : ∀ kv ∈ tl, ¬(kv.1 == k) := by
          intro kv hkv hc
          have hkv1 : kv.1 = k := by simpa using hc
          exact hparts.1 (by
            rw [hk, ← hkv1] at *
            exact List.mem_map_of_mem Prod.fst hkv)
        rw [hstep, dget_dmerge_not_mem _ _ _ hnotin, hk, dget_dset_self, hv2]
      · have hv2 : dget tl k = some v := by
          cases hd; simp_all [dget]
        exact hstep ▸ ih (dset base hd.1 hd.2) hv2 hparts.2

/-! ### Status-store lemmas -/

theorem setColumn_file_id (r : FileStatusRecord) (k : String) (v : ColValue) :
    (setColumn r k v).file_id = r.file_id := by
  unfold setColumn; split <;> rfl

theorem foldl_setColumn_file_id (kwargs : List (String × ColValue))
    (r : FileStatusRecord) :
    (kwargs.foldl (fun acc kv => setColumn acc kv.1 kv.2) r).file_id =
      r.file_id := by
  induction kwargs generalizing r with
  | nil => rfl
  | cons hd tl ih => rw [List.foldl_cons, ih, setColumn_file_id]

theorem applyUpdate_file_id (now : Nat) (a : UpdateArgs)
    (kwargs : List (String × ColValue)) (r : FileStatusRecord) :
    (applyUpdate now a kwargs r).file_id = r.file_id := by
  unfold applyUpdate
  rw [foldl_setColumn_file_id]
  rfl

theorem getFileStatus_map (store : Store) (fid : String)
    (g : FileStatusRecord → FileStatusRecord)
    (hg : ∀ r, (g r).file_id = r.file_id) :
    getFileStatus (store.map g) fid = (getFileStatus store fid).map g := by
  unfold getFileStatus
  rw [List.find?_map]
  have hp : ((fun r : FileStatusRecord => r.file_id == fid) ∘ g) =
      (fun r : FileStatusRecord => r.file_id == fid) := by
    funext r
    simp [Function.comp, hg]
  rw [hp]

theorem rowUpdate_file_id (now : Nat) (fid : String) (a : UpdateArgs)
    (kwargs : List (String × ColValue)) (r : FileStatusRecord) :
    (rowUpdate now fid a kwargs r).file_id = r.file_id := by
  unfold rowUpdate
  split
  · exact applyUpdate_file_id ..
  · rfl

theorem getFileStatus_update (now : Nat) (fid : String) (a : UpdateArgs)
    (kwargs : List (String × ColValue)) (store : Store) (q : String)
    (hgo : (!truthy a.status && !truthy a.current_stage &&
        !truthy a.volume_path && !truthy a.trace_id &&
        !truthy a.experiment_id && !truthy a.run_id &&
        !truthy a.error_message && kwargs.isEmpty) = false) :
    getFileStatus (updateFileStatus now fid a kwargs store) q =
      (getFileStatus store q).map (rowUpdate now fid a kwargs) := by
  unfold updateFileStatus
  rw [hgo]
  simp only [Bool.false_eq_true, if_false]
  exact getFileStatus_map store q _ (rowUpdate_file_id now fid a kwargs)

theorem setColumn_ne_status (r : FileStatusRecord) (k : String) (v : ColValue)
    (h : ¬(k = "status")) : (setColumn r k v).status = r.status := by
  unfold setColumn; split <;> simp_all

theorem setColumn_ne_error_message (r : FileStatusRecord) (k : String)
    (v : ColValue) (h : ¬(k = "error_message")) :
    (setColumn r k v).error_message = r.error_message := by
  unfold setColumn; split <;> simp_all

theorem setColumn_ne_trace_id (r : FileStatusRecord) (k : String)
    (v : ColValue) (h : ¬(k = "trace_id")) :
    (setColumn r k v).trace_id = r.trace_id := by
  unfold setColumn; split <;> simp_all

theorem stageKey_ne_trace_id (s : String) :
    ¬("stage_" ++ s ++ "_status" = "trace_id") := by
  intro h
  have hlen := congrArg String.length h
  rw [String.length_append, String.length_append] at hlen
  have e1 : "stage_".length = 6 := rfl
  have e2 : "_status".length = 7 := rfl
  have e3 : "trace_id".length = 8 := rfl
  rw [e1, e2, e3] at hlen
  omega

theorem stageKey_ne_status (s : String) :
    ¬("stage_" ++ s ++ "_status" = "status") := by
  intro h
  have hlen := congrArg String.length h
  rw [String.length_append, String.length_append] at hlen
  have e1 : "stage_".length = 6 := rfl
  have e2 : "_status".length = 7 := rfl
  have e3 : "status".length = 6 := rfl
  rw [e1, e2, e3] at hlen
  omega

theorem stageKey_ne_error_message (s : String) (hs : ¬(s.length = 0)) :
    ¬("stage_" ++ s ++ "_status" = "error_message") := by
  intro h
  have hlen := congrArg String.length h
  rw [String.length_append, String.length_append] at hlen
  have e1 : "stage_".length = 6 := rfl
  have e2 : "_status".length = 7 := rfl
  have e3 : "error_message".length = 13 := rfl
  rw [e1, e2, e3] at hlen
  omega

theorem foldl_setColumn_trace_id (kwargs : List (String × ColValue))
    (r : FileStatusRecord) (hk : ∀ kv ∈ kwargs, ¬(kv.1 = "trace_id")) :
    (kwargs.foldl (fun acc kv => setColumn acc kv.1 kv.2) r).trace_id =
      r.trace_id := by
  induction kwargs generalizing r with
  | nil => rfl
  | cons hd tl ih =>
      rw [List.foldl_cons, ih _ (fun kv hkv => hk kv (by simp [hkv])),
        setColumn_ne_trace_id _ _ _ (hk hd (by simp))]

theorem applyUpdate_trace_id (now : Nat) (a : UpdateArgs)
    (kwargs : List (String × ColValue)) (r : FileStatusRecord)
    (ha : a.trace_id = none) (hk : ∀ kv ∈ kwargs, ¬(kv.1 = "trace_id")) :
    (applyUpdate now a kwargs r).trace_id = r.trace_id := by
  unfold applyUpdate
  rw [foldl_setColumn_trace_id _ _ hk]
  simp [applyNamed, ha, truthy]

theorem traceAt_update (now : Nat) (fid : String) (a : UpdateArgs)
    (kwargs : List (String × ColValue)) (store : Store) (q : String)
    (ha : a.trace_id = none) (hk : ∀ kv ∈ kwargs, ¬(kv.1 = "trace_id")) :
    traceAt (updateFileStatus now fid a kwargs store) q = traceAt store q := by
  unfold traceAt updateFileStatus
  split
  · rfl
  · rw [getFileStatus_map store q _ (rowUpdate_file_id now fid a kwargs)]
    cases getFileStatus store q with
    | none => rfl
    | some r =>
        simp only [Option.map_some, Option.map_map]
        unfold rowUpdate
        by_cases hr : r.file_id = fid
        · simp [Function.comp, hr, applyUpdate_trace_id now a kwargs r ha hk]
        · simp [Function.comp, hr]

theorem traceAt_markFailed (now : Nat) (fid : String) (msg : String)
    (cs : Option String) (store : Store) (q : String) :
    traceAt (markFailed now fid msg cs store) q = traceAt store q := by
  unfold markFailed
  apply traceAt_update
  · rfl
  · intro kv hkv
    rcases List.mem_append.mp hkv with h1 | h2
    · simp at h1
      rw [h1]
      simp
    · split at h2
      · simp at h2
        rw [h2]
        exact stageKey_ne_trace_id _
      · simp at h2

theorem markCompletedKwargs_keys (now : Nat) (pc : Option String)
    (ec pm : Option Int) (kv : String × ColValue)
    (hkv : kv ∈ markCompletedKwargs now pc ec pm) :
    kv.1 = "end_time" ∨ kv.1 = "stage_ingest_status" ∨
    kv.1 = "stage_parse_status" ∨ kv.1 = "stage_categorize_status" ∨
    kv.1 = "stage_extract_status" ∨ kv.1 = "stage_deidentify_status" ∨
    kv.1 = "primary_category" ∨ kv.1 = "entities_count" ∨
    kv.1 = "pii_items_masked" := by
  unfold markCompletedKwargs at hkv
  rcases List.mem_append.mp hkv with h | h
  · rcases List.mem_append.mp h with h2 | h2
    · rcases List.mem_append.mp h2 with h3 | h3
      · simp at h3
        rcases h3 with h4 | h4 | h4 | h4 | h4 | h4 <;> simp [h4]
      · split at h3 <;> simp_all
    · rcases ec with _ | n <;> simp_all
  · rcases pm with _ | n <;> simp_all

theorem traceAt_markCompleted (now : Nat) (fid : String)
    (pc : Option String) (ec pm : Option Int) (store : Store) (q : String) :
    traceAt (markCompleted now fid pc ec pm store) q = traceAt store q := by
  unfold markCompleted
  apply traceAt_update
  · rfl
  · intro kv hkv
    rcases markCompletedKwargs_keys now pc ec pm kv hkv with
      h | h | h | h | h | h | h | h | h <;> simp [h]

/-! ### Controller-run lemmas -/

theorem trace_runParse (env : Env) (fid : String) (st : RunState) (q : String) :
    traceAt (stateOf (runParseStage env fid st)).store q =
      traceAt st.store q := by
  unfold runParseStage
  dsimp only
  cases hp : env.parseOutcome with
  | error e => rfl
  | ok pr =>
      try dsimp only
      cases hc : checkTestFailure env.forcedFailureStage "parse" with
      | some msg => rfl
      | none =>
          try dsimp only
          cases hs : statusIsSuccess pr with
          | error e => rfl
          | ok b =>
              cases b
              · rfl
              · try dsimp only [stateOf]
                apply traceAt_update
                · rfl
                · intro kv hkv
                  simp at hkv
                  simp [hkv]

theorem trace_runCategorize (env : Env) (fid : String) (st : RunState)
    (q : String) :
    traceAt (stateOf (runCategorizeStage env fid st)).store q =
      traceAt st.store q := by
  unfold runCategorizeStage
  dsimp only
  cases hp : categorize_document env.jsonLoads env.catRemote
      (st.parseR.getD .null) env.modelName env.nowTs with
  | error e => rfl
  | ok ce =>
      try dsimp only
      cases hc : checkTestFailure env.forcedFailureStage "categorize" with
      | some msg => rfl
      | none =>
          try dsimp only
          cases hs : statusIsSuccess ce with
          | error e => rfl
          | ok b =>
              cases b
              · rfl
              · try dsimp only
                cases hpc : primaryCategoryOf ce with
                | error e => rfl
                | ok pcJ =>
                    try dsimp only
                    cases hcv : pcColValue pcJ with
                    | none => rfl
                    | some cv =>
                        try dsimp only [stateOf]
                        apply traceAt_update
                        · rfl
                        · intro kv hkv
                          simp at hkv
                          rcases hkv with h | h <;> simp [h]

theorem trace_runExtract (env : Env) (fid : String) (st : RunState)
    (q : String) :
    traceAt (stateOf (runExtractStage env fid st)).store q =
      traceAt st.store q := by
  unfold runExtractStage
  dsimp only
  cases hp : extract_entities env.jsonLoads env.extRemote
      (st.catR.getD .null) env.modelName env.nowTs with
  | error e => rfl
  | ok ee =>
      try dsimp only
      cases hc : checkTestFailure env.forcedFailureStage "extract" with
      | some msg => rfl
      | none =>
          try dsimp only
          cases hs : statusIsSuccess ee with
          | error e => rfl
          | ok b =>
              cases b
              · rfl
              · try dsimp only [stateOf]
                apply traceAt_update
                · rfl
                · intro kv hkv
                  simp at hkv
                  simp [hkv]

theorem trace_completionUpdate (env : Env) (fid : String)
    (catR extR : Option J) (de : J) (store : Store) (q : String) :
    traceAt (completionUpdate env fid catR extR de store) q =
      traceAt store q := by
  unfold completionUpdate
  cases completionStats catR extR de with
  | error e => rfl
  | ok t =>
      rcases t with ⟨pcJ, ecJ, pmJ⟩
      dsimp only
      cases argStrOf pcJ with
      | none => rfl
      | some pc =>
          cases argIntOf ecJ with
          | none => rfl
          | some ec =>
              cases argIntOf pmJ with
              | none => rfl
              | some pm => exact traceAt_markCompleted ..

theorem trace_runDeidentify (env : Env) (fid : String) (st : RunState)
    (q : String) :
    traceAt (stateOf (runDeidentifyStage env fid st)).store q =
      traceAt st.store q := by
  unfold runDeidentifyStage
  dsimp only
  generalize (deidentify_document env.jsonLoads env.deidRemote
      (st.extR.getD .null) env.modelName env.nowTs).1 = res
  cases res with
  | error e => rfl
  | ok de =>
      try dsimp only
      cases hc : checkTestFailure env.forcedFailureStage "deidentify" with
      | some msg => rfl
      | none =>
          try dsimp only
          cases hs : statusIsSuccess de with
          | error e => rfl
          | ok b =>
              cases b
              · rfl
              · try dsimp only [stateOf]
                exact trace_completionUpdate env fid st.catR _ de st.store q

theorem trace_runStagesFrom (env : Env) (fid : String) (k : Nat)
    (st : RunState) (q : String) :
    traceAt (stateOf (runStagesFrom env fid k st)).store q =
      traceAt st.store q := by
  have l1 : ∀ s : RunState,
      traceAt (stateOf (if k ≤ 0 then runParseStage env fid s
        else .ok s)).store q = traceAt s.store q := by
    intro s; split
    · exact trace_runParse env fid s q
    · rfl
  have l2 : ∀ s : RunState,
      traceAt (stateOf (if k ≤ 1 then runCategorizeStage env fid s
        else .ok s)).store q = traceAt s.store q := by
    intro s; split
    · exact trace_runCategorize env fid s q
    · rfl
  have l3 : ∀ s : RunState,
      traceAt (stateOf (if k ≤ 2 then runExtractStage env fid s
        else .ok s)).store q = traceAt s.store q := by
    intro s; split
    · exact trace_runExtract env fid s q
    · rfl
  unfold runStagesFrom
  cases h1 : (if k ≤ 0 then runParseStage env fid st else .ok st) with
  | error p =>
      have := l1 st
      rw [h1] at this
      exact this
  | ok st1 =>
      dsimp only
      have e1 : traceAt st1.store q = traceAt st.store q := by
        have := l1 st
        rw [h1] at this
        exact this
      cases h2 : (if k ≤ 1 then runCategorizeStage env fid st1
          else .ok st1) with
      | error p =>
          have := l2 st1
          rw [h2] at this
          exact this.trans e1
      | ok st2 =>
          dsimp only
          have e2 : traceAt st2.store q = traceAt st1.store q := by
            have := l2 st1
            rw [h2] at this
            exact this
          cases h3 : (if k ≤ 2 then runExtractStage env fid st2
              else .ok st2) with
          | error p =>
              have := l3 st2
              rw [h3] at this
              exact ((this.trans e2).trans e1)
          | ok st3 =>
              dsimp only
              have e3 : traceAt st3.store q = traceAt st2.store q := by
                have := l3 st2
                rw [h3] at this
                exact this
              exact (((trace_runDeidentify env fid st3 q).trans e3).trans
                e2).trans e1

theorem invoked_runParse (env : Env) (fid : String) (st : RunState) :
    (stateOf (runParseStage env fid st)).invoked = st.invoked ++ ["parse"] := by
  unfold runParseStage
  dsimp only
  repeat' split
  all_goals rfl

theorem invoked_runCategorize (env : Env) (fid : String) (st : RunState) :
    (stateOf (runCategorizeStage env fid st)).invoked =
      st.invoked ++ ["categorize"] := by
  unfold runCategorizeStage
  dsimp only
  repeat' split
  all_goals rfl

theorem invoked_runExtract (env : Env) (fid : String) (st : RunState) :
    (stateOf (runExtractStage env fid st)).invoked =
      st.invoked ++ ["extract"] := by
  unfold runExtractStage
  dsimp only
  repeat' split
  all_goals rfl

theorem invoked_runDeidentify (env : Env) (fid : String) (st : RunState) :
    (stateOf (runDeidentifyStage env fid st)).invoked =
      st.invoked ++ ["deidentify"] := by
  unfold runDeidentifyStage
  dsimp only
  repeat' split
  all_goals rfl

theorem stages_runParse (env : Env) (fid : String) (st : RunState) :
    ∃ t, (stateOf (runParseStage env fid st)).stages = st.stages ++ t := by
  unfold runParseStage
  dsimp only
  repeat' split
  all_goals first
    | exact ⟨[], (List.append_nil _).symm⟩
    | exact ⟨_, rfl⟩

theorem stages_runCategorize (env : Env) (fid : String) (st : RunState) :
    ∃ t, (stateOf (runCategorizeStage env fid st)).stages =
      st.stages ++ t := by
  unfold runCategorizeStage
  dsimp only
  repeat' split
  all_goals first
    | exact ⟨[], (List.append_nil _).symm⟩
    | exact ⟨_, rfl⟩

theorem stages_runExtract (env : Env) (fid : String) (st : RunState) :
    ∃ t, (stateOf (runExtractStage env fid st)).stages = st.stages ++ t := by
  unfold runExtractStage
  dsimp only
  repeat' split
  all_goals first
    | exact ⟨[], (List.append_nil _).symm⟩
    | exact ⟨_, rfl⟩

theorem stages_runDeidentify (env : Env) (fid : String) (st : RunState) :
    ∃ t, (stateOf (runDeidentifyStage env fid st)).stages =
      st.stages ++ t := by
  unfold runDeidentifyStage
  dsimp only
  repeat' split
  all_goals first
    | exact ⟨[], (List.append_nil _).symm⟩
    | exact ⟨_, rfl⟩

/-- All stages the executor can append to the invocation log from resume
index `k` on. -/
theorem invoked_runStagesFrom_mem (env : Env) (fid : String) (k : Nat)
    (st : RunState) (x : String)
    (hx : x ∈ (stateOf (runStagesFrom env fid k st)).invoked) :
    x ∈ st.invoked ∨ (k ≤ 0 ∧ x = "parse") ∨ (k ≤ 1 ∧ x = "categorize") ∨
      (k ≤ 2 ∧ x = "extract") ∨ x = "deidentify" := by
  have mem1 : ∀ s : RunState,
      x ∈ (stateOf (if k ≤ 0 then runParseStage env fid s
        else .ok s)).invoked →
      x ∈ s.invoked ∨ (k ≤ 0 ∧ x = "parse") := by
    intro s hm
    by_cases hk : k ≤ 0
    · rw [if_pos hk, invoked_runParse] at hm
      rcases List.mem_append.mp hm with h | h
      · exact Or.inl h
      · simp at h
        exact Or.inr ⟨hk, h⟩
    · rw [if_neg hk] at hm
      exact Or.inl hm
  have mem2 : ∀ s : RunState,
      x ∈ (stateOf (if k ≤ 1 then runCategorizeStage env fid s
        else .ok s)).invoked →
      x ∈ s.invoked ∨ (k ≤ 1 ∧ x = "categorize") := by
    intro s hm
    by_cases hk : k ≤ 1
    · rw [if_pos hk, invoked_runCategorize] at hm
      rcases List.mem_append.mp hm with h | h
      · exact Or.inl h
      · simp at h
        exact Or.inr ⟨hk, h⟩
    · rw [if_neg hk] at hm
      exact Or.inl hm
  have mem3 : ∀ s : RunState,
      x ∈ (stateOf (if k ≤ 2 then runExtractStage env fid s
        else .ok s)).invoked →
      x ∈ s.invoked ∨ (k ≤ 2 ∧ x = "extract") := by
    intro s hm
    by_cases hk : k ≤ 2
    · rw [if_pos hk, invoked_runExtract] at hm
      rcases List.mem_append.mp hm with h | h
      · exact Or.inl h
      · simp at h
        exact Or.inr ⟨hk, h⟩
    · rw [if_neg hk] at hm
      exact Or.inl hm
  unfold runStagesFrom at hx
  cases h1 : (if k ≤ 0 then runParseStage env fid st else .ok st) with
  | error p =>
      rw [h1] at hx
      have := mem1 st
      rw [h1] at this
      rcases this hx with h | h
      · exact Or.inl h
      · exact Or.inr (Or.inl h)
  | ok st1 =>
      rw [h1] at hx
      dsimp only at hx
      have step1 : x ∈ st1.invoked → x ∈ st.invoked ∨ (k ≤ 0 ∧ x = "parse") := by
        intro hm
        have := mem1 st
        rw [h1] at this
        exact this hm
      cases h2 : (if k ≤ 1 then runCategorizeStage env fid st1
          else .ok st1) with
      | error p =>
          rw [h2] at hx
          have := mem2 st1
          rw [h2] at this
          rcases this hx with h | h
          · rcases step1 h with h3 | h3
            · exact Or.inl h3
            · exact Or.inr (Or.inl h3)
          · exact Or.inr (Or.inr (Or.inl h))
      | ok st2 =>
          rw [h2] at hx
          dsimp only at hx
          have step2 : x ∈ st2.invoked →
              x ∈ st.invoked ∨ (k ≤ 0 ∧ x = "parse") ∨
                (k ≤ 1 ∧ x = "categorize") := by
            intro hm
            have := mem2 st1
            rw [h2] at this
            rcases this hm with h | h
            · rcases step1 h with h3 | h3
              · exact Or.inl h3
              · exact Or.inr (Or.inl h3)
            · exact Or.inr (Or.inr h)
          cases h3 : (if k ≤ 2 then runExtractStage env fid st2
              else .ok st2) with
          | error p =>
              rw [h3] at hx
              have := mem3 st2
              rw [h3] at this
              rcases this hx with h | h
              · rcases step2 h with h4 | h4 | h4
                · exact Or.inl h4
                · exact Or.inr (Or.inl h4)
                · exact Or.inr (Or.inr (Or.inl h4))
              · exact Or.inr (Or.inr (Or.inr (Or.inl h)))
          | ok st3 =>
              rw [h3] at hx
              dsimp only at hx
              have step3 : x ∈ st3.invoked →
                  x ∈ st.invoked ∨ (k ≤ 0 ∧ x = "parse") ∨
                    (k ≤ 1 ∧ x = "categorize") ∨ (k ≤ 2 ∧ x = "extract") := by
                intro hm
                have := mem3 st2
                rw [h3] at this
                rcases this hm with h | h
                · rcases step2 h with h4 | h4 | h4
                  · exact Or.inl h4
                  · exact Or.inr (Or.inl h4)
                  · exact Or.inr (Or.inr (Or.inl h4))
                · exact Or.inr (Or.inr (Or.inr h))
              rw [invoked_runDeidentify] at hx
              rcases List.mem_append.mp hx with h | h
              · rcases step3 h with h4 | h4 | h4 | h4
                · exact Or.inl h4
                · exact Or.inr (Or.inl h4)
                · exact Or.inr (Or.inr (Or.inl h4))
                · exact Or.inr (Or.inr (Or.inr (Or.inl h4)))
              · simp at h
                exact Or.inr (Or.inr (Or.inr (Or.inr h)))

/-- When the executor starts at index 0 the parse stage function is always
invoked. -/
theorem parse_invoked_runStagesFrom (env : Env) (fid : String)
    (st : RunState) :
    "parse" ∈ (stateOf (runStagesFrom env fid 0 st)).invoked := by
  unfold runStagesFrom
  have hk : (0 : Nat) ≤ 0 := le_refl 0
  rw [if_pos hk]
  cases h1 : runParseStage env fid st with
  | error p =>
      have := invoked_runParse env fid st
      rw [h1] at this
      rw [show stateOf (Except.error p) = p.2 from rfl] at this ⊢
      rw [this]
      simp
  | ok st1 =>
      have hin1 : "parse" ∈ st1.invoked := by
        have := invoked_runParse env fid st
        rw [h1] at this
        rw [show stateOf (Except.ok st1) = st1 from rfl] at this
        rw [this]
        simp
      dsimp only
      rw [if_pos (by omega : (0 : Nat) ≤ 1)]
      cases h2 : runCategorizeStage env fid st1 with
      | error p =>
          have := invoked_runCategorize env fid st1
          rw [h2] at this
          rw [show stateOf (Except.error p) = p.2 from rfl] at this ⊢
          rw [this]
          exact List.mem_append_left _ hin1
      | ok st2 =>
          have hin2 : "parse" ∈ st2.invoked := by
            have := invoked_runCategorize env fid st1
            rw [h2] at this
            rw [show stateOf (Except.ok st2) = st2 from rfl] at this
            rw [this]
            exact List.mem_append_left _ hin1
          dsimp only
          rw [if_pos (by omega : (0 : Nat) ≤ 2)]
          cases h3 : runExtractStage env fid st2 with
          | error p =>
              have := invoked_runExtract env fid st2
              rw [h3] at this
              rw [show stateOf (Except.error p) = p.2 from rfl] at this ⊢
              rw [this]
              exact List.mem_append_left _ hin2
          | ok st3 =>
              have hin3 : "parse" ∈ st3.invoked := by
                have := invoked_runExtract env fid st2
                rw [h3] at this
                rw [show stateOf (Except.ok st3) = st3 from rfl] at this
                rw [this]
                exact List.mem_append_left _ hin2
              dsimp only
              rw [invoked_runDeidentify]
              exact List.mem_append_left _ hin3

/-! ### Lemmas for the reprocess, masking, pipeline and reset theorems -/

theorem append_comma_isEmpty_false (s t : String) :
    (s ++ "," ++ t).isEmpty = false := by
  cases h : (s ++ "," ++ t).isEmpty with
  | false => rfl
  | true =>
      rw [String.isEmpty_iff] at h
      have hl := congrArg String.length h
      rw [String.length_append, String.length_append] at hl
      have e1 : ",".length = 1 := rfl
      have e2 : ("" : String).length = 0 := rfl
      rw [e1, e2] at hl
      omega

theorem string_length_ne_zero (s : String) (h : s.isEmpty = false) :
    ¬(s.length = 0) := by
  intro h0
  have hs : s = "" := by
    cases s with
    | mk data =>
        have : data.length = 0 := h0
        have hd : data = [] := List.length_eq_zero.mp this
        rw [hd]
  rw [hs] at h
  exact absurd h (by decide)

theorem interruptMsg_isEmpty_false (cs : Option String) :
    (interruptMsg cs).isEmpty = false := by
  cases h : (interruptMsg cs).isEmpty with
  | false => rfl
  | true =>
      rw [String.isEmpty_iff] at h
      have hl := congrArg String.length h
      unfold interruptMsg at hl
      rw [String.length_append, String.length_append] at hl
      have e1 : "Processing interrupted by app restart (was at stage: ".length
          = 53 := rfl
      have e2 : ")".length = 1 := rfl
      have e3 : ("" : String).length = 0 := rfl
      rw [e1, e2, e3] at hl
      omega

theorem traceAt_update_set (now : Nat) (fid : String) (a : UpdateArgs)
    (kwargs : List (String × ColValue)) (store : Store) (r : FileStatusRecord)
    (t : String)
    (hr : getFileStatus store fid = some r)
    (ha : a.trace_id = some t) (htne : t.isEmpty = false)
    (hk : ∀ kv ∈ kwargs, ¬(kv.1 = "trace_id")) :
    traceAt (updateFileStatus now fid a kwargs store) fid = some (some t) := by
  have htt : truthy a.trace_id = true := by rw [ha]; simp [truthy, htne]
  have hgo : (!truthy a.status && !truthy a.current_stage &&
      !truthy a.volume_path && !truthy a.trace_id &&
      !truthy a.experiment_id && !truthy a.run_id &&
      !truthy a.error_message && kwargs.isEmpty) = false := by
    rw [htt]; simp
  have hid : (r.file_id == fid) = true := by
    unfold getFileStatus at hr
    have h2 := List.find?_some hr
    exact h2
  unfold traceAt
  rw [getFileStatus_update now fid a kwargs store fid hgo, hr]
  show some ((rowUpdate now fid a kwargs r).trace_id) = some (some t)
  unfold rowUpdate
  rw [if_pos hid]
  unfold applyUpdate
  rw [foldl_setColumn_trace_id _ _ hk]
  simp [applyNamed, ha, truthy, htne]

theorem traceAt_finishReprocess (env : Env) (fid : String) (si : Store)
    (res : Except (String × RunState) RunState) (q : String) :
    traceAt (finishReprocess env fid si res).store q =
      traceAt (stateOf res).store q := by
  cases res with
  | ok st => rfl
  | error p =>
      rcases p with ⟨msg, st⟩
      exact traceAt_markFailed ..

theorem reprocess_trace_stored (env : Env) (fid vp fn : String)
    (fs : Option String) (store : Store) (rstore : RStore)
    (r : FileStatusRecord) (tval : String)
    (hvp : vp.isEmpty = false)
    (hr : getFileStatus store fid = some r)
    (hcomb : combinedTraceIds env.newTraceId (r.trace_id.getD "")
      ((reprocessStart fs).2 != 0) = some tval)
    (htne : tval.isEmpty = false) :
    traceAt (reprocess_file env fid vp fn fs store rstore).store fid =
      some (some tval) := by
  unfold reprocess_file
  simp only [hvp, hr, Bool.false_eq_true, if_false, hcomb]
  rw [traceAt_finishReprocess, trace_runStagesFrom]
  dsimp only
  refine traceAt_update_set env.now fid _ _ store r tval hr ?ha htne ?hkw
  case ha => rfl
  intro kv hkv
  simp only [List.mem_cons, List.not_mem_nil, or_false] at hkv
  rcases hkv with h | h | h | h | h <;> subst h <;> simp

theorem invoked_finishReprocess (env : Env) (fid : String) (si : Store)
    (res : Except (String × RunState) RunState) :
    (finishReprocess env fid si res).invoked = (stateOf res).invoked := by
  cases res with
  | ok st => rfl
  | error p => rcases p with ⟨m, st⟩; rfl

theorem reprocess_scratch_parse_invoked (env : Env) (fid vp fn : String)
    (store : Store) (rstore : RStore) (hvp : vp.isEmpty = false) :
    "parse" ∈ (reprocess_file env fid vp fn none store rstore).invoked := by
  unfold reprocess_file
  simp only [hvp, Bool.false_eq_true, if_false]
  rw [invoked_finishReprocess]
  exact parse_invoked_runStagesFrom env fid _

theorem reprocessStart_le_three (fs : Option String) :
    (reprocessStart fs).2 ≤ 3 := by
  unfold reprocessStart
  rcases fs with _ | s
  · simp
  · dsimp only
    split
    · dsimp only
      unfold stageIndexOf
      split <;> omega
    · simp

theorem reprocess_invoked_lower (env : Env) (fid vp fn : String)
    (fs : Option String) (store : Store) (rstore : RStore) (x : String)
    (hvp : vp.isEmpty = false)
    (hexc : (loadPrevResults env.jsonLoads (reprocessStart fs).2
      (getResults rstore fid)).2.2.2.2 = false)
    (hx : x ∈ (reprocess_file env fid vp fn fs store rstore).invoked) :
    ((reprocessStart fs).2 ≤ 0 ∧ x = "parse") ∨
    ((reprocessStart fs).2 ≤ 1 ∧ x = "categorize") ∨
    ((reprocessStart fs).2 ≤ 2 ∧ x = "extract") ∨ x = "deidentify" := by
  unfold reprocess_file at hx
  simp only [hvp, Bool.false_eq_true, if_false] at hx
  rw [invoked_finishReprocess] at hx
  have hflag : (if 0 < (reprocessStart fs).2 then
      loadPrevResults env.jsonLoads (reprocessStart fs).2
        (getResults rstore fid)
    else (none, none, none, [], false)).2.2.2.2 = false := by
    split
    · exact hexc
    · rfl
  rw [hflag] at hx
  simp only [Bool.false_eq_true, if_false] at hx
  have hm := invoked_runStagesFrom_mem env fid _ _ x hx
  rcases hm with h | h
  · exact absurd h (List.not_mem_nil x)
  · exact h

theorem maskOne_wf (o : List (String × J)) (ty : String)
    (hty : dget o "type" = some (J.str ty)) :
    ∃ e2, maskOne (J.obj o) = .ok e2 ∧ maskSpec (J.obj o) e2 := by
  unfold maskOne
  dsimp only
  rw [hty]
  dsimp only
  by_cases hp : ty = "person" ∨ ty = "organization" ∨ ty = "email"
  · have hb : (J.beq (J.str ty) (J.str "person") ||
        J.beq (J.str ty) (J.str "organization") ||
        J.beq (J.str ty) (J.str "email")) = true := by
      rcases hp with rfl | rfl | rfl <;> decide
    rw [if_pos hb]
    refine ⟨_, rfl, ?_⟩
    intro o' ty' ho' hty'
    injection ho' with h
    subst h
    rw [hty] at hty'
    injection hty' with h2
    injection h2 with h3
    subst h3
    exact ⟨fun _ => rfl, fun hn => absurd hp hn⟩
  · have hb : (J.beq (J.str ty) (J.str "person") ||
        J.beq (J.str ty) (J.str "organization") ||
        J.beq (J.str ty) (J.str "email")) = false := by
      push_neg at hp
      obtain ⟨h1, h2, h3⟩ := hp
      simp [show J.beq (J.str ty) (J.str "person") = (ty == "person")
          from rfl,
        show J.beq (J.str ty) (J.str "organization") =
          (ty == "organization") from rfl,
        show J.beq (J.str ty) (J.str "email") = (ty == "email") from rfl,
        h1, h2, h3]
    rw [hb]
    simp only [Bool.false_eq_true, if_false]
    refine ⟨_, rfl, ?_⟩
    intro o' ty' ho' hty'
    injection ho' with h
    subst h
    rw [hty] at hty'
    injection hty' with h2
    injection h2 with h3
    subst h3
    exact ⟨fun hpos => absurd hpos hp, fun _ => rfl⟩

theorem maskEntityList_wf (ents : List J)
    (hwf : ∀ e ∈ ents, ∃ (o : List (String × J)) (ty : String),
      e = J.obj o ∧ dget o "type" = some (J.str ty)) :
    (maskEntityList ents).2 = none ∧
      List.Forall₂ maskSpec ents (maskEntityList ents).1 := by
  induction ents with
  | nil => exact ⟨rfl, List.Forall₂.nil⟩
  | cons e rest ih =>
      obtain ⟨o, ty, rfl, hty⟩ := hwf e (List.mem_cons_self e rest)
      obtain ⟨e2, hok, hspec⟩ := maskOne_wf o ty hty
      have ihr := ih (fun x hx => hwf x (List.mem_cons_of_mem _ hx))
      unfold maskEntityList
      rw [hok]
      dsimp only
      exact ⟨ihr.1, List.Forall₂.cons hspec ihr.2⟩

theorem maskingPass_entities (eo exo : List (String × J)) (ents : List J)
    (hex : dget eo "extraction" = some (J.obj exo))
    (hents : dget exo "entities" = some (J.arr ents))
    (hnoerr : (maskEntityList ents).2 = none) :
    maskingPass (J.obj eo) = .ok (J.obj (dset eo "extraction"
      (J.obj (dset exo "entities" (J.arr (maskEntityList ents).1))))) := by
  unfold maskingPass
  simp only [pyContains, pySubscript, hex, hents, Option.isSome_some,
    setEntities, hnoerr]

theorem categorize_fallback_ok (jl : String → Option J)
    (resp model ts : String) (pd : List (String × J)) (s : String)
    (hdoc : documentTextOf (J.obj pd) = .ok s)
    (hjl : jl resp = none) :
    categorize_document jl (.ok resp) (J.obj pd) model ts =
      .ok (J.obj (dset (dset (dset
        (dmerge (dset [] "status" (J.str "success")) pd)
        "categorization" (catFallback resp)) "model_used" (J.str model))
        "timestamp" (J.str ts))) := by
  unfold categorize_document
  rw [hdoc]
  dsimp only
  rw [hjl]
  rfl

theorem statusIsSuccess_obj (pd : List (String × J))
    (hpd : dget pd "status" = some (J.str "success")) :
    statusIsSuccess (J.obj pd) = .ok true := by
  unfold statusIsSuccess pyGet
  dsimp only
  rw [hpd]
  rfl

theorem ceC7_status (resp model ts : String) (pd : List (String × J))
    (hnd : (pd.map Prod.fst).Nodup)
    (hpd : dget pd "status" = some (J.str "success")) :
    dget (dset (dset (dset
        (dmerge (dset [] "status" (J.str "success")) pd)
        "categorization" (catFallback resp)) "model_used" (J.str model))
        "timestamp" (J.str ts)) "status" = some (J.str "success") := by
  rw [dget_dset_ne _ _ _ _ (by decide), dget_dset_ne _ _ _ _ (by decide),
    dget_dset_ne _ _ _ _ (by decide)]
  exact dget_dmerge_of_mem _ _ _ _ hpd hnd

theorem ceC7_categorization (resp model ts : String)
    (pd : List (String × J)) :
    dget (dset (dset (dset
        (dmerge (dset [] "status" (J.str "success")) pd)
        "categorization" (catFallback resp)) "model_used" (J.str model))
        "timestamp" (J.str ts)) "categorization" = some (catFallback resp) := by
  rw [dget_dset_ne _ _ _ _ (by decide), dget_dset_ne _ _ _ _ (by decide)]
  exact dget_dset_self _ _ _

theorem primaryCategoryOf_ceC7 (resp model ts : String)
    (pd : List (String × J)) :
    primaryCategoryOf (J.obj (dset (dset (dset
        (dmerge (dset [] "status" (J.str "success")) pd)
        "categorization" (catFallback resp)) "model_used" (J.str model))
        "timestamp" (J.str ts))) = .ok (J.str "Unknown") := by
  have h := ceC7_categorization resp model ts pd
  unfold primaryCategoryOf pyGet
  dsimp only
  rw [h]
  rfl

theorem runIngest_ok_eq (env : Env) (fileSize : Int) (filename fid : String)
    (cfg : String × String × String) (st : RunState) (vpJ : J)
    (hforce : checkTestFailure env.forcedFailureStage "ingest" = none)
    (hing : statusIsSuccess (ingest_file env.uploadOutcome env.fileHash
      fileSize filename cfg.1 cfg.2.1 cfg.2.2 env.nowTs) = .ok true)
    (hvp : pySubscript (ingest_file env.uploadOutcome env.fileHash fileSize
      filename cfg.1 cfg.2.1 cfg.2.2 env.nowTs) "volume_path" = .ok vpJ) :
    runIngestStage env fileSize filename fid cfg st = .ok
      { st with
        invoked := st.invoked ++ ["ingest"],
        stages := st.stages ++ [("ingest", ingest_file env.uploadOutcome
          env.fileHash fileSize filename cfg.1 cfg.2.1 cfg.2.2 env.nowTs)],
        store := updateFileStatus env.now fid
          { volume_path := some (pyStr vpJ), status := some "processing",
            current_stage := some "parse", trace_id := env.newTraceId,
            experiment_id := some env.experimentId }
          [("stage_ingest_status", ColValue.vstr "completed"),
           ("log_file_path", colOfOptStr env.logFilePath)] st.store,
        rstore := createResultRecord env.now fid env.newTraceId
          (some env.experimentId) (some (pyStr vpJ)) st.rstore } := by
  unfold runIngestStage
  dsimp only
  rw [hforce]
  dsimp only
  rw [hing]
  dsimp only
  rw [hvp]

theorem runParse_ok_eq (env : Env) (fid : String) (st : RunState) (pr : J)
    (hforce : checkTestFailure env.forcedFailureStage "parse" = none)
    (hpr : env.parseOutcome = .ok pr)
    (hprs : statusIsSuccess pr = .ok true) :
    runParseStage env fid st = .ok
      { st with
        invoked := st.invoked ++ ["parse"],
        stages := st.stages ++ [("parse", pr)],
        parseR := some pr,
        store := updateFileStatus env.now fid
          { current_stage := some "categorize" }
          [("stage_parse_status", ColValue.vstr "completed")] st.store,
        rstore := updateStageResult env.now fid "parse" pr st.rstore } := by
  unfold runParseStage
  dsimp only
  rw [hpr]
  dsimp only
  rw [hforce]
  dsimp only
  rw [hprs]

theorem runCategorize_forced_err (env : Env) (fid : String) (st : RunState)
    (ce : J) (msg : String)
    (hcat : categorize_document env.jsonLoads env.catRemote
      (st.parseR.getD .null) env.modelName env.nowTs = .ok ce)
    (hforce : checkTestFailure env.forcedFailureStage "categorize" =
      some msg) :
    runCategorizeStage env fid st = .error (msg,
      { st with
        invoked := st.invoked ++ ["categorize"],
        stages := st.stages ++ [("categorize", ce)],
        catR := some ce }) := by
  unfold runCategorizeStage
  dsimp only
  rw [hcat]
  dsimp only
  rw [hforce]

theorem runCategorize_ok_eq (env : Env) (fid : String) (st : RunState)
    (ce pc : J) (cv : ColValue)
    (hcat : categorize_document env.jsonLoads env.catRemote
      (st.parseR.getD .null) env.modelName env.nowTs = .ok ce)
    (hforce : checkTestFailure env.forcedFailureStage "categorize" = none)
    (hss : statusIsSuccess ce = .ok true)
    (hpc : primaryCategoryOf ce = .ok pc)
    (hcv : pcColValue pc = some cv) :
    runCategorizeStage env fid st = .ok
      { st with
        invoked := st.invoked ++ ["categorize"],
        stages := st.stages ++ [("categorize", ce)],
        catR := some ce,
        store := updateFileStatus env.now fid
          { current_stage := some "extract" }
          [("stage_categorize_status", ColValue.vstr "completed"),
           ("primary_category", cv)] st.store,
        rstore := updateStageResult env.now fid "categorize" ce st.rstore } := by
  unfold runCategorizeStage
  dsimp only
  rw [hcat]
  dsimp only
  rw [hforce]
  dsimp only
  rw [hss]
  dsimp only
  rw [hpc]
  dsimp only
  rw [hcv]

theorem extract_invoked_of_ok (env : Env) (fid : String)
    (st st1 st2 : RunState)
    (h1 : runParseStage env fid st = .ok st1)
    (h2 : runCategorizeStage env fid st1 = .ok st2) :
    "extract" ∈ (stateOf (runStagesFrom env fid 0 st)).invoked := by
  unfold runStagesFrom
  rw [if_pos (show (0:Nat) ≤ 0 from by omega), h1]
  dsimp only
  rw [if_pos (show (0:Nat) ≤ 1 from by omega), h2]
  dsimp only
  rw [if_pos (show (0:Nat) ≤ 2 from by omega)]
  cases h3 : runExtractStage env fid st2 with
  | error p =>
      have hx := invoked_runExtract env fid st2
      rw [h3] at hx
      rw [show stateOf (Except.error p) = p.2 from rfl] at hx ⊢
      rw [hx]
      simp
  | ok st3 =>
      have hx : "extract" ∈ st3.invoked := by
        have h4 := invoked_runExtract env fid st2
        rw [h3] at h4
        rw [show stateOf (Except.ok st3) = st3 from rfl] at h4
        rw [h4]
        simp
      dsimp only
      have h5 := invoked_runDeidentify env fid st3
      cases h6 : runDeidentifyStage env fid st3 with
      | error p =>
          rw [h6] at h5
          rw [show stateOf (Except.error p) = p.2 from rfl] at h5 ⊢
          rw [h5]
          exact List.mem_append_left _ hx
      | ok st4 =>
          rw [h6] at h5
          rw [show stateOf (Except.ok st4) = st4 from rfl] at h5 ⊢
          rw [h5]
          exact List.mem_append_left _ hx

theorem foldl_setColumn_status (kwargs : List (String × ColValue))
    (r : FileStatusRecord) (hk : ∀ kv ∈ kwargs, ¬(kv.1 = "status")) :
    (kwargs.foldl (fun acc kv => setColumn acc kv.1 kv.2) r).status =
      r.status := by
  induction kwargs generalizing r with
  | nil => rfl
  | cons hd tl ih =>
      rw [List.foldl_cons, ih _ (fun kv hkv => hk kv (by simp [hkv])),
        setColumn_ne_status _ _ _ (hk hd (by simp))]

theorem foldl_setColumn_error_message (kwargs : List (String × ColValue))
    (r : FileStatusRecord)
    (hk : ∀ kv ∈ kwargs, ¬(kv.1 = "error_message")) :
    (kwargs.foldl (fun acc kv => setColumn acc kv.1 kv.2) r).error_message =
      r.error_message := by
  induction kwargs generalizing r with
  | nil => rfl
  | cons hd tl ih =>
      rw [List.foldl_cons, ih _ (fun kv hkv => hk kv (by simp [hkv])),
        setColumn_ne_error_message _ _ _ (hk hd (by simp))]

theorem getFileStatus_markFailed_ne (now : Nat) (fid msg : String)
    (cs : Option String) (store : Store) (q : String) (hq : ¬(q = fid)) :
    getFileStatus (markFailed now fid msg cs store) q =
      getFileStatus store q := by
  unfold markFailed
  dsimp only
  rw [getFileStatus_update]
  rotate_left
  · rfl
  cases h : getFileStatus store q with
  | none => rfl
  | some r =>
      have hid : (r.file_id == q) = true := by
        unfold getFileStatus at h
        have h2 := List.find?_some h
        exact h2
      have hidn : (r.file_id == fid) = false := by
        have he : r.file_id = q := by simpa using hid
        rw [he]
        simp [hq]
      show some (rowUpdate now fid _ _ r) = some r
      rw [rowUpdate, hidn]
      rfl

theorem getFileStatus_markFailed_some (now : Nat) (fid msg : String)
    (cs : Option String) (store : Store) (q : String)
    (r0 : FileStatusRecord) (h : getFileStatus store q = some r0) :
    ∃ r1, getFileStatus (markFailed now fid msg cs store) q = some r1 := by
  unfold markFailed
  dsimp only
  rw [getFileStatus_update]
  rotate_left
  · rfl
  rw [h]
  exact ⟨_, rfl⟩

theorem getFileStatus_markFailed_self (now : Nat) (fid msg : String)
    (cs : Option String) (store : Store) (r0 : FileStatusRecord)
    (hr0 : getFileStatus store fid = some r0) (hmsg : msg.isEmpty = false) :
    ∃ r', getFileStatus (markFailed now fid msg cs store) fid = some r' ∧
      r'.status = some "failed" ∧ r'.error_message = some msg := by
  unfold markFailed
  dsimp only
  rw [getFileStatus_update]
  rotate_left
  · rfl
  rw [hr0]
  have h0 : (r0.file_id == fid) = true := by
    unfold getFileStatus at hr0
    have h2 := List.find?_some hr0
    exact h2
  have hkw : ∀ kv ∈ ([("end_time", ColValue.vtime now)] ++
      (if truthy cs then
        [("stage_" ++ cs.getD "" ++ "_status", ColValue.vstr "failed")]
      else [])),
      ¬(kv.1 = "status") ∧ ¬(kv.1 = "error_message") := by
    intro kv hkv
    rcases List.mem_append.mp hkv with h | h
    · simp at h
      rw [h]
      exact ⟨by simp, by simp⟩
    · split at h
      · next hcs =>
          simp at h
          rw [h]
          refine ⟨stageKey_ne_status _, stageKey_ne_error_message _ ?_⟩
          apply string_length_ne_zero
          cases cs with
          | none => exact absurd hcs (by decide)
          | some s =>
              have : truthy (some s) = !s.isEmpty := rfl
              rw [this] at hcs
              cases hse : s.isEmpty with
              | false => exact hse
              | true => rw [hse] at hcs; exact absurd hcs (by decide)
      · simp at h
  refine ⟨_, rfl, ?_, ?_⟩
  · show (rowUpdate now fid _ _ r0).status = some "failed"
    rw [rowUpdate, h0]
    simp only [eq_self_iff_true, if_true]
    unfold applyUpdate
    rw [foldl_setColumn_status _ _ (fun kv hkv => (hkw kv hkv).1)]
    simp [applyNamed, show truthy (some "failed") = true from rfl]
  · show (rowUpdate now fid _ _ r0).error_message = some msg
    rw [rowUpdate, h0]
    simp only [eq_self_iff_true, if_true]
    unfold applyUpdate
    rw [foldl_setColumn_error_message _ _ (fun kv hkv => (hkw kv hkv).2)]
    simp [applyNamed, truthy, hmsg]

theorem reset_stuck_eq (now : Nat) (store : Store) :
    reset_stuck_processing_files now store =
      (resetFold now (stuckList store) store, (stuckList store).length) := by
  unfold reset_stuck_processing_files resetFold stuckList
  dsimp only
  suffices h : ∀ (l : List FileStatusRecord) (s0 : Store) (n0 : Nat),
      l.foldl (fun acc r => (markFailed now r.file_id
        (interruptMsg r.current_stage) r.current_stage acc.1, acc.2 + 1))
        (s0, n0) =
      (l.foldl (fun acc r => markFailed now r.file_id
        (interruptMsg r.current_stage) r.current_stage acc) s0,
       n0 + l.length) by
    rw [h]
    simp
  intro l
  induction l with
  | nil =>
      intro s0 n0
      simp
  | cons hd tl ih =>
      intro s0 n0
      rw [List.foldl_cons, List.foldl_cons, ih]
      refine congrArg _ ?_
      simp
      omega

theorem resetFold_not_mem (now : Nat) (l : List FileStatusRecord)
    (s0 : Store) (q : String) (hq : ∀ r ∈ l, ¬(q = r.file_id)) :
    getFileStatus (resetFold now l s0) q = getFileStatus s0 q := by
  induction l generalizing s0 with
  | nil => rfl
  | cons hd tl ih =>
      rw [show resetFold now (hd :: tl) s0 = resetFold now tl
        (markFailed now hd.file_id (interruptMsg hd.current_stage)
          hd.current_stage s0) from rfl]
      rw [ih _ (fun r hr => hq r (List.mem_cons_of_mem _ hr))]
      exact getFileStatus_markFailed_ne now hd.file_id _ _ s0 q
        (hq hd (List.mem_cons_self hd tl))

theorem resetFold_mem (now : Nat) (l : List FileStatusRecord) (s0 : Store)
    (r : FileStatusRecord) (hr : r ∈ l)
    (hnd : (l.map (fun x => x.file_id)).Nodup)
    (hex : ∃ r0, getFileStatus s0 r.file_id = some r0) :
    ∃ r', getFileStatus (resetFold now l s0) r.file_id = some r' ∧
      r'.status = some "failed" ∧
      r'.error_message = some (interruptMsg r.current_stage) := by
  induction l generalizing s0 with
  | nil => cases hr
  | cons hd tl ih =>
      rw [show resetFold now (hd :: tl) s0 = resetFold now tl
        (markFailed now hd.file_id (interruptMsg hd.current_stage)
          hd.current_stage s0) from rfl]
      have hparts := List.nodup_cons.mp hnd
      rcases List.mem_cons.mp hr with rfl | hrtl
      · obtain ⟨r0, hr0⟩ := hex
        obtain ⟨r', hg, hs, he⟩ := getFileStatus_markFailed_self now
          r.file_id (interruptMsg r.current_stage) r.current_stage s0 r0
          hr0 (interruptMsg_isEmpty_false _)
        have hnot : ∀ x ∈ tl, ¬(r.file_id = x.file_id) := by
          intro x hx hc
          exact hparts.1 (by
            show r.file_id ∈ List.map (fun x => x.file_id) tl
            rw [hc]
            exact List.mem_map_of_mem _ hx)
        refine ⟨r', ?_, hs, he⟩
        rw [resetFold_not_mem now tl _ r.file_id hnot]
        exact hg
      · obtain ⟨r0, hr0⟩ := hex
        obtain ⟨r1, hr1⟩ := getFileStatus_markFailed_some now hd.file_id
          (interruptMsg hd.current_stage) hd.current_stage s0 r.file_id r0
          hr0
        exact ih _ hrtl hparts.2 ⟨r1, hr1⟩

theorem getFileStatus_self (store : Store) (r : FileStatusRecord)
    (hr : r ∈ store) (hnd : (store.map (fun x => x.file_id)).Nodup) :
    getFileStatus store r.file_id = some r := by
  induction store with
  | nil => cases hr
  | cons hd tl ih =>
      have hparts := List.nodup_cons.mp hnd
      rcases List.mem_cons.mp hr with rfl | hrtl
      · unfold getFileStatus
        rw [List.find?_cons_of_pos _ (by simp)]
      · have hne : (hd.file_id == r.file_id) = false := by
          cases hh : hd.file_id == r.file_id with
          | false => rfl
          | true =>
              exfalso
              apply hparts.1
              show hd.file_id ∈ List.map (fun x => x.file_id) tl
              have he : hd.file_id = r.file_id := by simpa using hh
              rw [he]
              exact List.mem_map_of_mem _ hrtl
        unfold getFileStatus
        rw [List.find?_cons_of_neg]
        · exact ih hrtl hparts.2
        · simp [hne]


/-! ### Claim theorems -/

/-- C1: the spec says the stage functions convert an expected remote-call
failure into an envelope with `status="failed"` plus an `error` field.  The
code catches the exception and does build such a dict, but the
`**input_data` spread sits after the `"status": "failed"` key, so the
input envelope's `status` (always `"success"` for an input produced by a
successful upstream stage) overwrites it: the returned envelope carries
`status="success"` together with the `error` field, for all three of
categorize, extract and de-identify.  This theorem evaluates the three
functions at such an input with a failing remote call. -/
theorem C1_failure_envelope_status_overwritten :
    categorize_document jlNone (RemoteOutcome.err "boom") sampleParsed "m" "T"
      = .ok sampleFailedBack ∧
    extract_entities jlNone (RemoteOutcome.err "boom") sampleParsed "m" "T"
      = .ok sampleFailedBack ∧
    (deidentify_document jlNone (RemoteOutcome.err "boom") sampleParsed "m"
      "T").1 = .ok sampleFailedBack ∧
    jAsStr (jobjGet sampleFailedBack "status") = some "success" ∧
    jAsStr (jobjGet sampleFailedBack "error") = some "boom" := by
  refine ⟨?_, ?_, ?_, ?_, ?_⟩ <;> rfl

/-- C3: on reprocess-from-scratch the initial status update does clear the
four per-stage sub-statuses (their columns are keyword arguments, set even
when `None`), but the `error_message=None` argument travels through the
truthiness-guarded named-parameter path of `update_file_status` and is
silently dropped, so the previous error message survives — contradicting
both the claim and the source's own `# Clear previous error` comment.
Evaluated on a record with a prior error message, inspecting the ghost
store snapshot taken right after the initial update, before any stage. -/
theorem C3_initial_update_clears_stages_but_not_error :
    (let out := reprocess_file happyEnv "f1" "/Volumes/c/s/v/a.pdf" "a.pdf"
      none [prevRecord] []
     (getFileStatus out.storeAfterInit "f1").map (fun r =>
       (r.stage_parse_status, r.stage_categorize_status,
        r.stage_extract_status, r.stage_deidentify_status,
        r.error_message, r.status, r.current_stage))) =
    some (none, none, none, none, some "previous error",
      some "processing", some "parse") := by
  rfl

/-- C2 counterexample: a resume invocation DOES name a failed stage
(`"parse"`), the record holds the prior trace id `"old"`, and a new trace
id `"new"` exists — yet the stored value is exactly `"new"`: because
`is_resume = start_index > 0` is false for the first stage of
`stage_order`, resuming from `parse` takes the replace branch, not the
append branch the claim requires. -/
theorem C2_counterexample_resume_from_parse_replaces :
    (let out := reprocess_file happyEnv "f1" "/Volumes/c/s/v/a.pdf" "a.pdf"
      (some "parse") [prevRecord] []
     traceAt out.store "f1") = some (some "new") ∧
    ¬ ((some "new" : Option String) = some ("old" ++ "," ++ "new")) := by
  exact ⟨rfl, by decide⟩

/-- C4 counterexample: resuming from failed stage `categorize` when the
Results Store has NO row for the file: the loading block raises nothing, so
no fallback to parse happens ("parse" is never invoked); the categorize
stage then runs with `parsed_data=None`, raises
`TypeError: argument of type 'NoneType' is not iterable`, and the run is
marked failed — instead of the claimed fall-back to the Parse stage. -/
theorem C4_counterexample_absent_results_no_fallback :
    (let out := reprocess_file happyEnv "f1" "/Volumes/c/s/v/a.pdf" "a.pdf"
      (some "categorize") [prevRecord] []
     (out.invoked, out.resultStatus, out.errorMsg,
      (getFileStatus out.store "f1").map (fun r => r.status))) =
    (["categorize"], "failed",
      some "TypeError: argument of type NoneType is not iterable",
      some (some "failed")) ∧
    ¬ ("parse" ∈ (["categorize"] : List String)) := by
  exact ⟨rfl, by decide⟩

/-- C5 counterexample: the claim says the sanitized filename is the ORIGINAL
extension appended to a clean base name.  But `sanitize_filename` replaces
spaces BEFORE splitting off the extension, so an extension containing a
space is altered: `"doc.t xt"` (extension `".t xt"`) sanitizes to
`"doc.t_xt"`, which no base name can combine with `".t xt"` to produce. -/
theorem C5_counterexample_extension_not_preserved :
    sanitize_filename "doc.t xt" = "doc.t_xt" ∧
    (splitext "doc.t xt").2 = ".t xt" ∧
    ¬ ∃ base : String, base ++ ".t xt" = "doc.t_xt" := by
  refine ⟨rfl, rfl, ?_⟩
  rintro ⟨b, hb⟩
  have hd := congrArg String.data hb
  rw [String.data_append] at hd
  have hsplit : "doc.t_xt".data = "doc".data ++ ".t_xt".data := by decide
  rw [hsplit] at hd
  have hlen2 := congrArg List.length hd
  rw [List.length_append, List.length_append] at hlen2
  have e1 : ".t xt".data.length = 5 := by decide
  have e2 : "doc".data.length = 3 := by decide
  have e3 : ".t_xt".data.length = 5 := by decide
  rw [e1, e2, e3] at hlen2
  have hlen : b.data.length = "doc".data.length := by rw [e2]; omega
  have := List.append_inj hd hlen
  exact absurd this.2 (by decide)

set_option maxRecDepth 100000 in
set_option maxHeartbeats 1000000 in
/-- C7 counterexample: for a non-JSON remote response longer than 200
characters the fallback stores only the first 200 characters as the
justification, not the raw response text; and for an input envelope whose
`status` is `"failed"` the dict spread makes the result's status `"failed"`
rather than the claimed `"success"`. -/
theorem C7_counterexample_truncation_and_status :
    jAsStr ((envField (categorize_document jlNone
        (RemoteOutcome.ok longResponse) sampleParsed "m" "T")
        "categorization").bind (fun c => jobjGet c "primary_justification")) =
      some (longResponse.take 200) ∧
    ¬ (longResponse.take 200 = longResponse) ∧
    jAsStr (envField (categorize_document jlNone (RemoteOutcome.ok "x")
      failedStatusInput "m" "T") "status") = some "failed" := by
  refine ⟨rfl, by decide, rfl⟩

set_option maxRecDepth 20000 in
set_option maxHeartbeats 2000000 in
/-- C8 counterexample: `reset_stuck_processing_files` fetches at most 1000
rows (`limit=1000`, ordered by `created_at` descending).  In a store of
1001 rows whose only `processing` row is the oldest one, the call resets
nothing: the claim "N records with status=processing become failed" fails
for N = 1. -/
theorem C8_counterexample_limit_1000 :
    (reset_stuck_processing_files 7 limitStore).1 = limitStore ∧
    (reset_stuck_processing_files 7 limitStore).2 = 0 ∧
    (getFileStatus limitStore "f1000").map (fun r => r.status) =
      some (some "processing") := by
  refine ⟨rfl, rfl, rfl⟩

theorem setColumn_end_time (r : FileStatusRecord) (v : ColValue) :
    setColumn r "end_time" v = { r with end_time := v.asTime } := rfl

theorem setColumn_stage_ingest (r : FileStatusRecord) (v : ColValue) :
    setColumn r "stage_ingest_status" v =
      { r with stage_ingest_status := v.asStr } := rfl

theorem setColumn_stage_parse (r : FileStatusRecord) (v : ColValue) :
    setColumn r "stage_parse_status" v =
      { r with stage_parse_status := v.asStr } := rfl

theorem setColumn_stage_categorize (r : FileStatusRecord) (v : ColValue) :
    setColumn r "stage_categorize_status" v =
      { r with stage_categorize_status := v.asStr } := rfl

theorem setColumn_stage_extract (r : FileStatusRecord) (v : ColValue) :
    setColumn r "stage_extract_status" v =
      { r with stage_extract_status := v.asStr } := rfl

theorem setColumn_stage_deidentify (r : FileStatusRecord) (v : ColValue) :
    setColumn r "stage_deidentify_status" v =
      { r with stage_deidentify_status := v.asStr } := rfl

theorem setColumn_primary_category (r : FileStatusRecord) (v : ColValue) :
    setColumn r "primary_category" v =
      { r with primary_category := v.asStr } := rfl

theorem setColumn_entities_count (r : FileStatusRecord) (v : ColValue) :
    setColumn r "entities_count" v =
      { r with entities_count := v.asInt } := rfl

theorem setColumn_pii_items_masked (r : FileStatusRecord) (v : ColValue) :
    setColumn r "pii_items_masked" v =
      { r with pii_items_masked := v.asInt } := rfl

theorem setColumn_log_file_path (r : FileStatusRecord) (v : ColValue) :
    setColumn r "log_file_path" v =
      { r with log_file_path := v.asStr } := rfl

set_option maxHeartbeats 2000000 in
/-- Closed form of one `mark_completed` row update. -/
theorem applyUpdate_markCompleted_eq (now : Nat) (pc : Option String)
    (ec pm : Option Int) (r : FileStatusRecord) :
    applyUpdate now markCompletedArgs (markCompletedKwargs now pc ec pm) r =
      { r with
        updated_at := now,
        status := some "completed",
        current_stage := some "deidentify",
        end_time := some now,
        stage_ingest_status := some "completed",
        stage_parse_status := some "completed",
        stage_categorize_status := some "completed",
        stage_extract_status := some "completed",
        stage_deidentify_status := some "completed",
        primary_category :=
          if truthy pc then some (pc.getD "") else r.primary_category,
        entities_count := ec.or r.entities_count,
        pii_items_masked := pm.or r.pii_items_masked } := by
  rcases ec with _ | n <;> rcases pm with _ | m <;>
    cases hpc : truthy pc <;>
    simp [applyUpdate, applyNamed, markCompletedKwargs, markCompletedArgs,
      hpc, setColumn_end_time, setColumn_stage_ingest,
      setColumn_stage_parse, setColumn_stage_categorize,
      setColumn_stage_extract, setColumn_stage_deidentify,
      setColumn_primary_category, setColumn_entities_count,
      setColumn_pii_items_masked, ColValue.asTime, ColValue.asStr,
      ColValue.asInt, List.foldl_cons, List.foldl_nil,
      show truthy (some "completed") = true from rfl,
      show truthy (some "deidentify") = true from rfl,
      show truthy none = false from rfl]

/-- One row: reapplying the `mark_completed` update overwrites the same
columns with the same values. -/
theorem markCompleted_row_idem (now1 now2 : Nat) (pc : Option String)
    (ec pm : Option Int) (r : FileStatusRecord) :
    applyUpdate now2 markCompletedArgs (markCompletedKwargs now2 pc ec pm)
      (applyUpdate now1 markCompletedArgs (markCompletedKwargs now1 pc ec pm)
        r) =
    applyUpdate now2 markCompletedArgs (markCompletedKwargs now2 pc ec pm)
      r := by
  simp only [applyUpdate_markCompleted_eq]
  rcases ec with _ | n <;> rcases pm with _ | m <;>
    cases hpc : truthy pc <;> rfl

/-- C9: `mark_completed` writes absolute values — overall and per-stage
statuses, `end_time`, and (when given) `primary_category`,
`entities_count`, `pii_items_masked`.  A second call with the same
arguments overwrites every column it touches with the same values, so two
consecutive calls leave the record exactly as one call would; in
particular the statistics are set, never accumulated. -/
theorem C9_markCompleted_idempotent (now1 now2 : Nat) (fid : String)
    (pc : Option String) (ec pm : Option Int) (store : Store) :
    markCompleted now2 fid pc ec pm (markCompleted now1 fid pc ec pm store) =
      markCompleted now2 fid pc ec pm store := by
  unfold markCompleted updateFileStatus
  simp only [show (!truthy markCompletedArgs.status) = false from rfl,
    Bool.false_and, Bool.false_eq_true, if_false]
  rw [List.map_map]
  apply List.map_congr_left
  intro r _
  simp only [Function.comp]
  cases hr : r.file_id == fid with
  | false => simp [rowUpdate, hr]
  | true =>
      have h2 : rowUpdate now1 fid markCompletedArgs
          (markCompletedKwargs now1 pc ec pm) r =
          applyUpdate now1 markCompletedArgs
            (markCompletedKwargs now1 pc ec pm) r := by
        simp [rowUpdate, hr]
      have h3 : rowUpdate now2 fid markCompletedArgs
          (markCompletedKwargs now2 pc ec pm) r =
          applyUpdate now2 markCompletedArgs
            (markCompletedKwargs now2 pc ec pm) r := by
        simp [rowUpdate, hr]
      have h4 : ∀ s : FileStatusRecord, s.file_id = r.file_id →
          rowUpdate now2 fid markCompletedArgs
            (markCompletedKwargs now2 pc ec pm) s =
          applyUpdate now2 markCompletedArgs
            (markCompletedKwargs now2 pc ec pm) s := by
        intro s hs
        simp [rowUpdate, hs, hr]
      rw [h2, h4 _ (applyUpdate_file_id ..), h3, markCompleted_row_idem]

/-- C2 (amended): reprocess-from-scratch re-invokes the Parse stage and
stores exactly the new trace id, REPLACING any prior value; a resume naming
one of the post-parse stages appends the new id after the prior value,
comma-joined, most recent last; but a resume naming `parse` (start index 0)
REPLACES the trace id rather than appending, because the resume test uses
the pre-loading start index. -/
theorem C2_amended_trace_semantics (env : Env) (fid vp fn : String)
    (store : Store) (rstore : RStore) (r : FileStatusRecord) (t : String)
    (hvp : vp.isEmpty = false)
    (hr : getFileStatus store fid = some r)
    (ht : env.newTraceId = some t) (htne : t.isEmpty = false) :
    ("parse" ∈ (reprocess_file env fid vp fn none store rstore).invoked ∧
      traceAt (reprocess_file env fid vp fn none store rstore).store fid =
        some (some t)) ∧
    (∀ prior : String, r.trace_id = some prior → prior.isEmpty = false →
      ∀ S : String, S = "categorize" ∨ S = "extract" ∨ S = "deidentify" →
        traceAt (reprocess_file env fid vp fn (some S) store rstore).store
          fid = some (some (prior ++ "," ++ t))) ∧
    (∀ prior : String, r.trace_id = some prior →
      traceAt (reprocess_file env fid vp fn (some "parse") store
        rstore).store fid = some (some t)) := by
  refine ⟨⟨reprocess_scratch_parse_invoked env fid vp fn store rstore hvp,
    ?_⟩, ?_, ?_⟩
  · apply reprocess_trace_stored env fid vp fn none store rstore r t hvp hr
      ?_ htne
    rw [ht]
    rfl
  · intro prior hprior hpne S hS
    have hcomb : combinedTraceIds env.newTraceId (r.trace_id.getD "")
        ((reprocessStart (some S)).2 != 0) = some (prior ++ "," ++ t) := by
      rcases hS with rfl | rfl | rfl <;>
        simp [combinedTraceIds, hprior, ht, hpne, htne, truthy,
          show ((reprocessStart (some "categorize")).2 != 0) = true from
            by decide,
          show ((reprocessStart (some "extract")).2 != 0) = true from
            by decide,
          show ((reprocessStart (some "deidentify")).2 != 0) = true from
            by decide]
    exact reprocess_trace_stored env fid vp fn (some S) store rstore r _ hvp
      hr hcomb (append_comma_isEmpty_false prior t)
  · intro prior hprior
    apply reprocess_trace_stored env fid vp fn (some "parse") store rstore r
      t hvp hr ?_ htne
    rw [ht]
    have h0 : ((reprocessStart (some "parse")).2 != 0) = false := by decide
    rw [h0]
    rfl

/-- C2 witness: the three trace behaviours at a concrete store. -/
theorem C2_amended_witness :
    ("parse" ∈ (reprocess_file happyEnv "f1" "/v" "a.pdf" none [prevRecord]
        []).invoked ∧
      traceAt (reprocess_file happyEnv "f1" "/v" "a.pdf" none [prevRecord]
        []).store "f1" = some (some "new")) ∧
    traceAt (reprocess_file happyEnv "f1" "/v" "a.pdf" (some "categorize")
      [prevRecord] []).store "f1" = some (some ("old" ++ "," ++ "new")) ∧
    traceAt (reprocess_file happyEnv "f1" "/v" "a.pdf" (some "parse")
      [prevRecord] []).store "f1" = some (some "new") :=
  ⟨(C2_amended_trace_semantics happyEnv "f1" "/v" "a.pdf" [prevRecord] []
      prevRecord "new" (by decide) (by decide) rfl (by decide)).1,
   (C2_amended_trace_semantics happyEnv "f1" "/v" "a.pdf" [prevRecord] []
      prevRecord "new" (by decide) (by decide) rfl (by decide)).2.1 "old" rfl
      (by decide) "categorize" (Or.inl rfl),
   (C2_amended_trace_semantics happyEnv "f1" "/v" "a.pdf" [prevRecord] []
      prevRecord "new" (by decide) (by decide) rfl (by decide)).2.2 "old" rfl⟩

/-- C4 (amended): a resume from failed stage S runs no stage strictly
before S when loading raises nothing (every invoked stage is at or after
the start index); a `json.loads` exception while loading falls back to
running Parse; but an ABSENT results row does NOT fall back: the skipped
stages stay skipped, Parse is never invoked, and the run fails on the
missing input. -/
theorem C4_amended_resume_loading (env : Env) (fid vp fn : String)
    (S : String) (store : Store) (rstore : RStore)
    (hvp : vp.isEmpty = false) :
    ((loadPrevResults env.jsonLoads (reprocessStart (some S)).2
        (getResults rstore fid)).2.2.2.2 = false →
      ∀ x ∈ (reprocess_file env fid vp fn (some S) store rstore).invoked,
        (reprocessStart (some S)).2 ≤ stageIndexOf x) ∧
    ((loadPrevResults env.jsonLoads (reprocessStart (some S)).2
        (getResults rstore fid)).2.2.2.2 = true →
      "parse" ∈ (reprocess_file env fid vp fn (some S) store
        rstore).invoked) ∧
    (getResults rstore fid = none →
      S = "categorize" ∨ S = "extract" ∨ S = "deidentify" →
      ¬("parse" ∈ (reprocess_file env fid vp fn (some S) store
          rstore).invoked) ∧
      (reprocess_file env fid vp fn (some S) store rstore).resultStatus =
        "failed") := by
  refine ⟨?skip, ?fallback, ?absent⟩
  case skip =>
    intro hexc x hx
    rcases reprocess_invoked_lower env fid vp fn (some S) store rstore x hvp
        hexc hx with ⟨h, rfl⟩ | ⟨h, rfl⟩ | ⟨h, rfl⟩ | rfl
    · rw [show stageIndexOf "parse" = 0 from rfl]
      exact h
    · rw [show stageIndexOf "categorize" = 1 from rfl]
      exact h
    · rw [show stageIndexOf "extract" = 2 from rfl]
      exact h
    · rw [show stageIndexOf "deidentify" = 3 from rfl]
      exact reprocessStart_le_three (some S)
  case fallback =>
    intro hexc
    unfold reprocess_file
    simp only [hvp, Bool.false_eq_true, if_false]
    rw [invoked_finishReprocess]
    by_cases h0 : 0 < (reprocessStart (some S)).2
    · simp only [if_pos h0, hexc, if_true]
      exact parse_invoked_runStagesFrom env fid _
    · have hk0 : (reprocessStart (some S)).2 = 0 := by omega
      simp only [hk0]
      exact parse_invoked_runStagesFrom env fid _
  case absent =>
    intro hres hS
    rcases hS with rfl | rfl | rfl <;>
      (unfold reprocess_file
       simp only [hvp, Bool.false_eq_true, if_false, hres]
       refine ⟨fun hmem => ?_, rfl⟩
       rw [invoked_finishReprocess] at hmem
       first
         | exact absurd (show "parse" ∈ ["categorize"] from hmem) (by decide)
         | exact absurd (show "parse" ∈ ["extract"] from hmem) (by decide)
         | exact absurd (show "parse" ∈ ["deidentify"] from hmem)
             (by decide))

/-- C4 witness: fallback on a stored-but-unparsable row, no fallback on an
absent row. -/
theorem C4_amended_witness :
    ("parse" ∈ (reprocess_file happyEnv "f1" "/v" "a.pdf" (some "categorize")
        [prevRecord] [storedResults]).invoked) ∧
    (¬("parse" ∈ (reprocess_file happyEnv "f1" "/v" "a.pdf"
        (some "categorize") [prevRecord] []).invoked) ∧
      (reprocess_file happyEnv "f1" "/v" "a.pdf" (some "categorize")
        [prevRecord] []).resultStatus = "failed") :=
  ⟨(C4_amended_resume_loading happyEnv "f1" "/v" "a.pdf" "categorize"
      [prevRecord] [storedResults] (by decide)).2.1 (by decide),
   (C4_amended_resume_loading happyEnv "f1" "/v" "a.pdf" "categorize"
      [prevRecord] [] (by decide)).2.2 rfl (Or.inl rfl)⟩

/-- C5 (amended): for ASCII filenames the sanitized name is a base of
characters from [A-Za-z0-9_-] followed by the extension OF THE
SPACE-REPLACED filename (spaces are replaced before the extension is split,
so an extension containing a space is mangled rather than preserved). -/
theorem C5_amended_sanitize_shape (f : String)
    (hascii : ∀ c ∈ f.data, c.toNat < 128) :
    ∃ base : String,
      sanitize_filename f = base ++ (splitext (replaceSpaces f)).2 ∧
      ∀ c ∈ base.data, c.isAlphanum = true ∨ c = '_' ∨ c = '-' := by
  refine ⟨sanitizeBase (splitext (replaceSpaces f)).1, rfl, ?_⟩
  intro c hc
  unfold sanitizeBase at hc
  have hc2 : c ∈ (splitext (replaceSpaces f)).1.data.map
      (fun c => if isWordChar c || c == '-' then c else '_') := hc
  rcases List.mem_map.mp hc2 with ⟨c0, _, hmap⟩
  by_cases hw : (isWordChar c0 || c0 == '-') = true
  · rw [if_pos hw] at hmap
    subst hmap
    exact by simpa [isWordChar, or_assoc] using hw
  · rw [if_neg hw] at hmap
    subst hmap
    exact Or.inr (Or.inl rfl)

/-- C5 witness: a concrete filename with spaces. -/
theorem C5_amended_witness :
    (∀ c ∈ ("My Report (final).pdf" : String).data, c.toNat < 128) ∧
    (∃ base : String,
      sanitize_filename "My Report (final).pdf" =
        base ++ (splitext (replaceSpaces "My Report (final).pdf")).2 ∧
      ∀ c ∈ base.data, c.isAlphanum = true ∨ c = '_' ∨ c = '-') :=
  ⟨by decide, C5_amended_sanitize_shape "My Report (final).pdf" (by decide)⟩

set_option maxHeartbeats 1000000 in
/-- C6 (confirmed): when the test hook forces a failure at `categorize`
(ingest and parse having succeeded), the run fails and the status record
ends with status=failed, current_stage=categorize,
stage_categorize_status=failed and stage_parse_status=completed. -/
theorem C6_forced_categorize_failure_record (env : Env) (fileSize : Int)
    (filename fid freshId : String) (store : Store) (rstore : RStore)
    (cfg : String × String × String) (pr ce vpJ : J)
    (r0 : FileStatusRecord)
    (hfid : fid.isEmpty = false)
    (hforce : env.forcedFailureStage = some "categorize")
    (hvol : env.volumeConfig = some cfg)
    (hing : statusIsSuccess (ingest_file env.uploadOutcome env.fileHash
      fileSize filename cfg.1 cfg.2.1 cfg.2.2 env.nowTs) = .ok true)
    (hvpJ : pySubscript (ingest_file env.uploadOutcome env.fileHash fileSize
      filename cfg.1 cfg.2.1 cfg.2.2 env.nowTs) "volume_path" = .ok vpJ)
    (hpr : env.parseOutcome = .ok pr)
    (hprs : statusIsSuccess pr = .ok true)
    (hcat : categorize_document env.jsonLoads env.catRemote pr
      env.modelName env.nowTs = .ok ce)
    (hr0 : getFileStatus store fid = some r0) :
    (process_file_through_pipeline env fileSize filename (some fid) freshId
      store rstore).resultStatus = "failed" ∧
    ∃ r2 : FileStatusRecord,
      getFileStatus (process_file_through_pipeline env fileSize filename
        (some fid) freshId store rstore).store fid = some r2 ∧
      r2.status = some "failed" ∧
      r2.current_stage = some "categorize" ∧
      r2.stage_categorize_status = some "failed" ∧
      r2.stage_parse_status = some "completed" := by
  have htf_ing : checkTestFailure env.forcedFailureStage "ingest" = none := by
    rw [hforce]; decide
  have htf_par : checkTestFailure env.forcedFailureStage "parse" = none := by
    rw [hforce]; decide
  have htf_cat : checkTestFailure env.forcedFailureStage "categorize" =
      some "TEST FAILURE: Forced failure at categorize stage for testing" := by
    rw [hforce]; decide
  have htr : truthy (some fid) = true := by simp [truthy, hfid]
  unfold process_file_through_pipeline
  rw [hvol]
  dsimp only
  simp only [htr, if_true, Option.getD_some]
  obtain ⟨msg3, st3, hrun, hstage3, hstore3⟩ :
      ∃ (msg3 : String) (st3 : RunState),
        (do
          let st1 ← runIngestStage env fileSize filename fid cfg
            ⟨store, rstore, [], [], none, none, none⟩
          runStagesFrom env fid 0 st1 :
          Except (String × RunState) RunState) = .error (msg3, st3) ∧
        failedStageOf st3.stages "ingest" = "categorize" ∧
        st3.store = updateFileStatus env.now fid
          { current_stage := some "categorize" }
          [("stage_parse_status", ColValue.vstr "completed")]
          (updateFileStatus env.now fid
            { volume_path := some (pyStr vpJ), status := some "processing",
              current_stage := some "parse", trace_id := env.newTraceId,
              experiment_id := some env.experimentId }
            [("stage_ingest_status", ColValue.vstr "completed"),
             ("log_file_path", colOfOptStr env.logFilePath)] store) := by
    refine ⟨?msg3, ?st3, ?_, ?_, ?_⟩
    rotate_left 2
    · rw [runIngest_ok_eq env fileSize filename fid cfg _ vpJ htf_ing hing
        hvpJ]
      change runStagesFrom env fid 0 _ = _
      unfold runStagesFrom
      rw [if_pos (show (0:Nat) ≤ 0 from by omega)]
      rw [runParse_ok_eq env fid _ pr htf_par hpr hprs]
      dsimp only
      rw [if_pos (show (0:Nat) ≤ 1 from by omega)]
      rw [runCategorize_forced_err env fid _ ce
        "TEST FAILURE: Forced failure at categorize stage for testing"]
      rotate_left
      · exact hcat
      · exact htf_cat
      dsimp only
      exact rfl
    · rfl
    · rfl
  rw [hrun]
  unfold finishPipeline
  dsimp only
  refine ⟨rfl, ?_⟩
  rw [hstage3, hstore3]
  unfold markFailed
  dsimp only
  rw [show (if truthy (some "categorize") then
      [("stage_" ++ (some "categorize").getD "" ++ "_status",
        ColValue.vstr "failed")] else []) =
    [("stage_categorize_status", ColValue.vstr "failed")] from rfl]
  rw [show (if truthy (some "categorize") then (some "categorize" :
    Option String) else none) = some "categorize" from rfl]
  rw [getFileStatus_update]
  rotate_left
  · rfl
  rw [getFileStatus_update]
  rotate_left
  · rfl
  rw [getFileStatus_update]
  rotate_left
  · rfl
  rw [hr0]
  have h0 : (r0.file_id == fid) = true := by
    unfold getFileStatus at hr0
    have h2 := List.find?_some hr0
    exact h2
  refine ⟨_, rfl, ?_, ?_, ?_, ?_⟩
  all_goals
    simp only [rowUpdate, applyUpdate_file_id, h0, eq_self_iff_true, if_true,
      applyUpdate, List.foldl_cons, List.foldl_nil, List.cons_append,
      List.nil_append,
      setColumn_end_time, setColumn_stage_categorize, setColumn_stage_parse,
      setColumn_stage_ingest, setColumn_log_file_path, applyNamed,
      ColValue.asStr,
      show truthy (some "failed") = true from rfl,
      show truthy (some "categorize") = true from rfl,
      show truthy (some "processing") = true from rfl,
      show truthy (some "parse") = true from rfl]

/-- C6 witness: a concrete forced-failure run. -/
theorem C6_witness :
    (process_file_through_pipeline c6Env 1 "a.pdf" (some "f1") "g1"
      [prevRecord] []).resultStatus = "failed" ∧
    ∃ r2 : FileStatusRecord,
      getFileStatus (process_file_through_pipeline c6Env 1 "a.pdf"
        (some "f1") "g1" [prevRecord] []).store "f1" = some r2 ∧
      r2.status = some "failed" ∧
      r2.current_stage = some "categorize" ∧
      r2.stage_categorize_status = some "failed" ∧
      r2.stage_parse_status = some "completed" :=
  C6_forced_categorize_failure_record c6Env 1 "a.pdf" "f1" "g1" [prevRecord]
    [] ("c", "s", "v")
    (J.obj [("status", J.str "success"), ("pages", J.arr [])])
    (J.obj [("status", J.str "success"), ("pages", J.arr []),
      ("categorization", catFallback "notjson"),
      ("model_used", J.str "model"), ("timestamp", J.str "ts")])
    (J.str "/Volumes/c/s/v/a.pdf") prevRecord
    (by decide) rfl rfl rfl rfl rfl rfl rfl rfl

/-- C7 (amended): when the categorize remote call returns text that is not
valid JSON, `categorize_document` returns an envelope whose `status` echoes
the (successful) parse input, whose categorization is the fallback with
`primary_category="Unknown"` and the response text TRUNCATED TO 200
CHARACTERS as `primary_justification` (not the raw text), and the
controller then invokes the Extract stage. -/
theorem C7_amended_nonjson_categorize (env : Env) (fid resp : String)
    (pd : List (String × J)) (st : RunState)
    (hforced : env.forcedFailureStage = none)
    (hpr : env.parseOutcome = .ok (J.obj pd))
    (hcat : env.catRemote = .ok resp)
    (hjl : env.jsonLoads resp = none)
    (hdoc : ∃ s, documentTextOf (J.obj pd) = .ok s)
    (hnd : (pd.map Prod.fst).Nodup)
    (hpd : dget pd "status" = some (J.str "success")) :
    ∃ ce : J,
      categorize_document env.jsonLoads env.catRemote (J.obj pd)
        env.modelName env.nowTs = .ok ce ∧
      jobjGet ce "categorization" = some (catFallback resp) ∧
      jobjGet (catFallback resp) "primary_category" =
        some (J.str "Unknown") ∧
      jobjGet (catFallback resp) "primary_justification" =
        some (J.str (resp.take 200)) ∧
      jobjGet ce "status" = some (J.str "success") ∧
      "extract" ∈ (stateOf (runStagesFrom env fid 0 st)).invoked := by
  obtain ⟨s, hdoc⟩ := hdoc
  have hce := categorize_fallback_ok env.jsonLoads resp env.modelName
    env.nowTs pd s hdoc hjl
  have htfp : checkTestFailure env.forcedFailureStage "parse" = none := by
    rw [hforced]; rfl
  have htfc : checkTestFailure env.forcedFailureStage "categorize" = none := by
    rw [hforced]; rfl
  have hpar := runParse_ok_eq env fid st (J.obj pd) htfp hpr
    (statusIsSuccess_obj pd hpd)
  refine ⟨J.obj (dset (dset (dset
      (dmerge (dset [] "status" (J.str "success")) pd)
      "categorization" (catFallback resp)) "model_used"
      (J.str env.modelName)) "timestamp" (J.str env.nowTs)),
    ?_, ?_, rfl, rfl, ?_, ?_⟩
  · rw [hcat]
    exact hce
  · unfold jobjGet
    exact ceC7_categorization resp env.modelName env.nowTs pd
  · unfold jobjGet
    exact ceC7_status resp env.modelName env.nowTs pd hnd hpd
  · have hcat2 := runCategorize_ok_eq env fid
      { st with
        invoked := st.invoked ++ ["parse"],
        stages := st.stages ++ [("parse", J.obj pd)],
        parseR := some (J.obj pd),
        store := updateFileStatus env.now fid
          { current_stage := some "categorize" }
          [("stage_parse_status", ColValue.vstr "completed")] st.store,
        rstore := updateStageResult env.now fid "parse" (J.obj pd)
          st.rstore }
      _ (J.str "Unknown") (ColValue.vstr "Unknown")
      (by
        dsimp only
        rw [hcat]
        exact hce)
      htfc
      (statusIsSuccess_obj _ (ceC7_status resp env.modelName env.nowTs pd
        hnd hpd))
      (primaryCategoryOf_ceC7 resp env.modelName env.nowTs pd)
      rfl
    exact extract_invoked_of_ok env fid st _ _ hpar hcat2

/-- C7 witness: the fallback path on a concrete environment. -/
theorem C7_amended_witness :
    ∃ ce : J,
      categorize_document happyEnv.jsonLoads happyEnv.catRemote
        (J.obj [("status", J.str "success"), ("pages", J.arr [])])
        happyEnv.modelName happyEnv.nowTs = .ok ce ∧
      jobjGet ce "categorization" = some (catFallback "notjson") ∧
      jobjGet (catFallback "notjson") "primary_category" =
        some (J.str "Unknown") ∧
      jobjGet (catFallback "notjson") "primary_justification" =
        some (J.str ("notjson".take 200)) ∧
      jobjGet ce "status" = some (J.str "success") ∧
      "extract" ∈ (stateOf (runStagesFrom happyEnv "f1" 0
        ⟨[], [], [], [], none, none, none⟩)).invoked :=
  C7_amended_nonjson_categorize happyEnv "f1" "notjson"
    [("status", J.str "success"), ("pages", J.arr [])]
    ⟨[], [], [], [], none, none, none⟩
    rfl rfl rfl rfl ⟨"", rfl⟩ (by decide) rfl

/-- C8 (amended): on a store of AT MOST 1000 rows with distinct ids, one
reset pass marks every `processing` row failed with the explanatory
interruption message naming its stage, counts them, and leaves every other
row unchanged; the 1000-row retrieval limit is why the bound is needed
(see the counterexample for the 1001-row store). -/
theorem C8_amended_reset_semantics (now : Nat) (store : Store)
    (hlen : store.length ≤ 1000)
    (hnd : (store.map (fun x => x.file_id)).Nodup) :
    (reset_stuck_processing_files now store).2 =
      (store.filter (fun r => r.status == some "processing")).length ∧
    (∀ r ∈ store, (r.status == some "processing") = true →
      ∃ r', getFileStatus (reset_stuck_processing_files now store).1
          r.file_id = some r' ∧
        r'.status = some "failed" ∧
        r'.error_message = some (interruptMsg r.current_stage) ∧
        (interruptMsg r.current_stage).isEmpty = false) ∧
    (∀ r ∈ store, (r.status == some "processing") = false →
      getFileStatus (reset_stuck_processing_files now store).1 r.file_id =
        some r) := by
  have hperm : List.Perm (List.insertionSort createdDesc store) store :=
    List.perm_insertionSort _ _
  have hga : getAllFiles store 1000 = List.insertionSort createdDesc store := by
    unfold getAllFiles
    apply List.take_of_length_le
    rw [hperm.length_eq]
    exact hlen
  have hstuck : stuckList store = (List.insertionSort createdDesc
      store).filter (fun r => r.status == some "processing") := by
    unfold stuckList
    rw [hga]
  have hstuckperm : List.Perm (stuckList store)
      (store.filter (fun r => r.status == some "processing")) := by
    rw [hstuck]
    exact hperm.filter _
  have hndstuck : ((stuckList store).map (fun x => x.file_id)).Nodup := by
    have hsub : List.Sublist (stuckList store)
        (List.insertionSort createdDesc store) := by
      rw [hstuck]
      exact List.filter_sublist _
    have hmapsub := hsub.map (fun x => x.file_id)
    have hnodup2 : ((List.insertionSort createdDesc store).map
        (fun x => x.file_id)).Nodup := by
      exact ((hperm.map (fun x => x.file_id)).nodup_iff).mpr hnd
    exact hmapsub.nodup hnodup2
  refine ⟨?_, ?_, ?_⟩
  · rw [reset_stuck_eq]
    exact hstuckperm.length_eq
  · intro r hr hp
    rw [reset_stuck_eq]
    have hmem : r ∈ stuckList store := by
      rw [hstuck]
      exact List.mem_filter.mpr ⟨hperm.mem_iff.mpr hr, hp⟩
    obtain ⟨r', hg, hs, he⟩ := resetFold_mem now (stuckList store) store r
      hmem hndstuck ⟨r, getFileStatus_self store r hr hnd⟩
    exact ⟨r', hg, hs, he, interruptMsg_isEmpty_false _⟩
  · intro r hr hp
    rw [reset_stuck_eq]
    have hnotin : ∀ x ∈ stuckList store, ¬(r.file_id = x.file_id) := by
      intro x hx hc
      have hx2 := hx
      rw [hstuck] at hx2
      have hx3 := List.mem_filter.mp hx2
      have hxs : x ∈ store := hperm.mem_iff.mp hx3.1
      have hxr : x = r := by
        have := List.inj_on_of_nodup_map hnd hxs hr
        exact this hc.symm
      rw [hxr] at hx3
      rw [hp] at hx3
      exact absurd hx3.2 (by decide)
    show getFileStatus (resetFold now (stuckList store) store) r.file_id =
      some r
    rw [resetFold_not_mem now (stuckList store) store r.file_id hnotin]
    exact getFileStatus_self store r hr hnd

/-- C8 witness: a two-row store, one stuck and one completed. -/
theorem C8_amended_witness :
    (reset_stuck_processing_files 7 [stuckRec, doneRec]).2 =
      ([stuckRec, doneRec].filter
        (fun r => r.status == some "processing")).length ∧
    (∃ r', getFileStatus (reset_stuck_processing_files 7
        [stuckRec, doneRec]).1 stuckRec.file_id = some r' ∧
      r'.status = some "failed" ∧
      r'.error_message = some (interruptMsg stuckRec.current_stage) ∧
      (interruptMsg stuckRec.current_stage).isEmpty = false) ∧
    getFileStatus (reset_stuck_processing_files 7 [stuckRec, doneRec]).1
      doneRec.file_id = some doneRec :=
  ⟨(C8_amended_reset_semantics 7 [stuckRec, doneRec] (by decide)
      (by decide)).1,
   (C8_amended_reset_semantics 7 [stuckRec, doneRec] (by decide)
      (by decide)).2.1 stuckRec (by decide) (by decide),
   (C8_amended_reset_semantics 7 [stuckRec, doneRec] (by decide)
      (by decide)).2.2 doneRec (by decide) (by decide)⟩

/-- C10 (confirmed): on the success path `deidentify_document` mutates the
caller's dict in place — the returned post-state of the argument has every
person / organization / email entity's `value` overwritten with
`[REDACTED]` plus `masked=true`, and every other entity untouched
(elementwise, via `maskSpec`); on the remote-exception path the argument
comes back unchanged. -/
theorem C10_deidentify_masks_input_in_place (jl : String → Option J)
    (text model ts : String) (eo exo : List (String × J)) (ents : List J)
    (hdoc : ∃ s, documentTextOf (J.obj eo) = .ok s)
    (hex : dget eo "extraction" = some (J.obj exo))
    (hents : dget exo "entities" = some (J.arr ents))
    (hwf : ∀ e ∈ ents, ∃ (o : List (String × J)) (ty : String),
      e = J.obj o ∧ dget o "type" = some (J.str ty)) :
    (∃ ents2 : List J,
      (deidentify_document jl (.ok text) (J.obj eo) model ts).2 =
        J.obj (dset eo "extraction" (J.obj (dset exo "entities"
          (J.arr ents2)))) ∧
      List.Forall₂ maskSpec ents ents2) ∧
    (∀ (extracted : J) (emsg : String),
      (deidentify_document jl (.err emsg) extracted model ts).2 =
        extracted) := by
  constructor
  · obtain ⟨hn, hfa⟩ := maskEntityList_wf ents hwf
    refine ⟨(maskEntityList ents).1, ?_, hfa⟩
    obtain ⟨s, hdoc⟩ := hdoc
    unfold deidentify_document
    rw [hdoc]
    dsimp only
    rw [maskingPass_entities eo exo ents hex hents hn]
    dsimp only
    repeat' split
    all_goals rfl
  · intro extracted emsg
    unfold deidentify_document
    cases documentTextOf extracted with
    | error e => rfl
    | ok s => rfl

/-- C10 witness: a concrete two-entity envelope. -/
theorem C10_witness :
    (∃ ents2 : List J,
      (deidentify_document jlNone (.ok "resp") (J.obj deidEO) "m" "T").2 =
        J.obj (dset deidEO "extraction" (J.obj (dset deidEXO "entities"
          (J.arr ents2)))) ∧
      List.Forall₂ maskSpec deidEnts ents2) ∧
    (∀ (extracted : J) (emsg : String),
      (deidentify_document jlNone (.err emsg) extracted "m" "T").2 =
        extracted) :=
  C10_deidentify_masks_input_in_place jlNone "resp" "m" "T" deidEO deidEXO
    deidEnts ⟨"", rfl⟩ rfl rfl
    (by
      intro e he
      simp only [deidEnts, List.mem_cons, List.not_mem_nil, or_false] at he
      rcases he with rfl | rfl
      · exact ⟨_, "person", rfl, rfl⟩
      · exact ⟨_, "date", rfl, rfl⟩)

end UPQ
